import Mathlib

/-
  Verification development for the UKK practical-exam grading engine
  (FastAPI backend, `app/ukk_runner` plus the WebSocket bridge in
  `app/routers/ukk.py`).

  The Python source is shallowly embedded: every definition below is a
  direct translation of the named source function.  Remote effects
  (paramiko SSH command execution, HTTP requests) are abstracted by a
  `World` record supplying the outcome of each call; code paths that can
  raise are embedded in `Except String`.
-/

deriving instance DecidableEq for Except

namespace UKK

/-! ## Value model

Python dict values flowing through the comparator, the checkers' raw
dicts and the formatter are scalars (None / bool / int / str) plus, in
diagnostic fields, per-key comparison tables.  `Scalar.null` plays the
role of Python `None`. -/

inductive Scalar where
  | null
  | bool (b : Bool)
  | int (n : Int)
  | str (s : String)
deriving DecidableEq, Repr

/-- One entry of a per-key comparison table, as built by
`app/ukk_runner/utils/compare.py` (`{"expected": ..., "actual": ...,
"status": ...}`) and by `check_php_modules`. -/
structure CmpEntry where
  expected : Scalar
  actual : Scalar
  status : Bool
deriving DecidableEq, Repr

/-- A raw-dict value: a scalar or a nested comparison table (the
`"modules"` field of the PHP modules check). -/
inductive RV where
  | s (v : Scalar)
  | table (t : List (String × CmpEntry))
deriving DecidableEq, Repr

/-- A checker's raw result dict: an insertion-ordered association list,
mirroring a Python `dict` (whose keys are unique). -/
abbrev Raw := List (String × RV)

/-- `d.get(k)`: first binding of `k`, `none` when absent. -/
def dictGet {α : Type} (d : List (String × α)) (k : String) : Option α :=
  match d.find? (fun p => p.1 = k) with
  | some p => some p.2
  | none => none

/-! ## Python string primitives used by the source

All string manipulation is implemented structurally over the character
list, so concrete runs evaluate inside the kernel.  Python's Unicode
case folding and exotic whitespace classes are approximated by the
ASCII `Char` operations — no string the source manipulates leaves
ASCII. -/

/-- Python `str.strip()`: drop leading and trailing whitespace. -/
def pyStrip (s : String) : String :=
  String.mk (((s.data.dropWhile Char.isWhitespace).reverse.dropWhile
    Char.isWhitespace).reverse)

/-- Python `str.lower()`. -/
def pyLower (s : String) : String := String.mk (s.data.map Char.toLower)

/-- Python `str.upper()`. -/
def pyUpper (s : String) : String := String.mk (s.data.map Char.toUpper)

/-- Python `str.startswith(pre)`. -/
def pyStartsWith (s pre : String) : Bool := pre.data.isPrefixOf s.data

def pySplitAux : List Char → List Char → List (List Char)
  | [], acc => if acc.isEmpty then [] else [acc.reverse]
  | c :: rest, acc =>
    if c.isWhitespace then
      if acc.isEmpty then pySplitAux rest [] else acc.reverse :: pySplitAux rest []
    else pySplitAux rest (c :: acc)

/-- Python `str.split()` with no argument: split on whitespace runs,
discarding empty fragments. -/
def pySplit (s : String) : List String := (pySplitAux s.data []).map String.mk

def splitlinesAux : List Char → List Char → List (List Char)
  | [], acc => [acc.reverse]
  | '\r' :: '\n' :: rest, acc => acc.reverse :: splitlinesAux rest []
  | '\n' :: rest, acc => acc.reverse :: splitlinesAux rest []
  | '\r' :: rest, acc => acc.reverse :: splitlinesAux rest []
  | c :: rest, acc => splitlinesAux rest (c :: acc)

/-- Python `str.splitlines()`: split at line terminators (`\n`, `\r`,
`\r\n`), without a trailing empty line for a trailing terminator, and
`[]` for the empty string. -/
def splitlines (s : String) : List String :=
  if s.data.isEmpty then []
  else
    let parts := splitlinesAux s.data []
    (if parts.getLast? = some [] then parts.dropLast else parts).map String.mk

/-- `needle` occurs contiguously in `hay`, scanning left to right. -/
def listContains (needle : List Char) : List Char → Bool
  | [] => needle.isEmpty
  | c :: rest => needle.isPrefixOf (c :: rest) || listContains needle rest

/-- Python `needle in hay` on strings: substring containment. -/
def strContains (hay needle : String) : Bool :=
  listContains needle.data hay.data

/-- Python truthiness of a scalar (`None`/`False`/`0`/`""` are falsy). -/
def Scalar.truthy : Scalar → Bool
  | .null => false
  | .bool b => b
  | .int n => n ≠ 0
  | .str s => s ≠ ""

/-- Python `repr` of a plain string (no internal quotes or escapes):
wraps it in single quotes; used by the `{expected!r}` f-string in
`run_proxmox`. -/
def pyRepr (s : String) : String := "\x27" ++ s ++ "\x27"

/-! ## `app/ukk_runner/utils/compare.py` -/

/-- `compare(actual, expected)`: one `{expected, actual, status}` entry
per key of `expected`, in `expected`'s iteration order; a key missing
from `actual` reads as `None`; `status` is exact equality. -/
def compare (actual expected : List (String × Scalar)) : List (String × CmpEntry) :=
  expected.map (fun p =>
    let actual_val := (dictGet actual p.1).getD .null
    (p.1, { expected := p.2, actual := actual_val, status := actual_val == p.2 }))

/-! ## `app/ukk_runner/formatter.py` -/

/-- One formatted check record.  The source also stamps a fresh
`uuid.uuid4()` id and a `datetime.utcnow()` timestamp; both are
environment-generated identifiers never examined by any logic and are
not modelled. -/
structure CheckResult where
  category : String
  step_code : String
  step_name : String
  status : String
  score : Int
  max_score : Int
  message : RV
  raw : Raw
deriving DecidableEq, Repr

/-- `format_result(category, step_code, step_name, raw_result, score=5)`.
`raw_result.get("status", False)` is compared with `is True` / `is
False`, so any non-boolean value falls into the `"error"` branch.  The
`score` parameter (default 5 at every call that omits it) becomes
`max_score`; the earned score is `score` on success and `0` otherwise. -/
def format_result (category step_code step_name : String) (raw_result : Raw)
    (score : Int) : CheckResult :=
  let status_bool := (dictGet raw_result "status").getD (.s (.bool false))
  let sp : String × Int :=
    if status_bool = .s (.bool true) then ("success", score)
    else if status_bool = .s (.bool false) then ("failed", 0)
    else ("error", 0)
  { category := category
    step_code := step_code
    step_name := step_name
    status := sp.1
    score := sp.2
    max_score := score
    message := (dictGet raw_result "message").getD (.s .null)
    raw := raw_result }

/-! ## `app/ukk_runner/scoring.py` -/

structure ScoreManager where
  total_score : Int
  max_score : Int
deriving DecidableEq, Repr

/-- Fresh accumulator (`ScoreManager.__init__`). -/
def ScoreManager.init : ScoreManager := ⟨0, 0⟩

/-- `add(result)`: running sums of `score` and `max_score`. -/
def ScoreManager.add (sm : ScoreManager) (result : CheckResult) : ScoreManager :=
  ⟨sm.total_score + result.score, sm.max_score + result.max_score⟩

structure Summary where
  total : Int
  max : Int
  percentage : ℚ
  grade : String
deriving DecidableEq, Repr

/-- The unrounded percentage `total/max*100`, `0` unless `max > 0`.
Python computes this in floating point; it is modelled exactly in `ℚ`. -/
def pctOf (total max : Int) : ℚ :=
  if max > 0 then (total : ℚ) / (max : ℚ) * 100 else 0

/-- Python `round(x, 2)` on the percentage, modelled as rounding to the
nearest multiple of 1/100 (Python rounds the nearest binary double,
ties-to-even; the difference only surfaces at exact ties, which the
grading thresholds never probe). -/
def round2 (q : ℚ) : ℚ := ((round (q * 100) : ℤ) : ℚ) / 100

/-- The grade if-chain of `summary()`, applied to the unrounded
percentage. -/
def gradeOf (percentage : ℚ) : String :=
  if percentage ≥ 90 then "A"
  else if percentage ≥ 80 then "B"
  else if percentage ≥ 70 then "C" else "D"

/-- `summary()`: the reported percentage is rounded to two decimals; the
grade is computed from the unrounded value. -/
def ScoreManager.summary (sm : ScoreManager) : Summary :=
  let percentage := pctOf sm.total_score sm.max_score
  { total := sm.total_score
    max := sm.max_score
    percentage := round2 percentage
    grade := gradeOf percentage }

/-! ## Remote world and `app/ukk_runner/utils/ssh.py`

`SSHClient` wraps one paramiko connection per host credential.  The
remote side's behaviour is abstracted by a `World`: `connect` is
`SSHClient.connect()` (its paramiko `connect` call may raise, carrying a
cause string), `exec` is `client.exec_command` plus the stdout/stderr
reads and exit-status wait performed by `SSHClient.run` (any of which
may raise).  The session-state bookkeeping (`last_output`, idempotent
`close()`, sudo password piping on stdin) has no observable effect on
the values the checkers read and is not modelled. -/

/-- One host credential (`ProxmoxNode` row / `SSHClient` identity). -/
structure Node where
  host : String
  user : String
  password : String
deriving DecidableEq, Repr

/-- Captured outcome of one executed remote command. -/
structure RunRes where
  out : String
  err : String
  code : Int
deriving DecidableEq, Repr

/-- WordPress HTTP response as read by `check_wordpress_login`:
`response.url`, session cookies, `response.text`, `status_code`. -/
structure WPResp where
  url : String
  cookies : List (String × String)
  text : String
  status_code : Int
deriving DecidableEq, Repr

structure World where
  /-- `SSHClient(host, user, password).connect()` -/
  connect : Node → Except String Unit
  /-- `SSHClient.run` after sudo wrapping: command execution and capture. -/
  exec : Node → String → Except String RunRes
  /-- `humanize_datetime(timestamp_to_datetime ts)`: local-timezone and
  locale dependent `strftime`, supplied by the environment. -/
  humanize : Nat → String
  /-- `requests.Session().get(login_url, timeout=5)` (response unused). -/
  wpGet : String → Except String Unit
  /-- `session.post(login_url, data=payload, timeout=5)`. -/
  wpPost : String → List (String × String) → Except String WPResp

/-- `SSHClient.run(command, use_sudo)`: prefix the sudo wrapper when
requested, then execute. -/
def sshRun (w : World) (node : Node) (command : String) (use_sudo : Bool) :
    Except String RunRes :=
  let command := if use_sudo then "sudo -S -p \x27\x27 " ++ command else command
  w.exec node command

/-! ## `app/ukk_runner/utils/parser.py` -/

/-- `re.search(pre ++ "(cap+)")`-style scan: find the first occurrence of
`pre` followed by at least one character satisfying `ok`, and return the
maximal such run (the regexes `size=([^,]+)`, `iso/([^,]+)` and
`ctime=(\d+)` all have this shape). -/
def findCapture (pre : List Char) (ok : Char → Bool) : List Char → Option (List Char)
  | [] => none
  | c :: rest =>
    if pre.isPrefixOf (c :: rest) then
      let cap := ((c :: rest).drop pre.length).takeWhile ok
      if cap.isEmpty then findCapture pre ok rest else some cap
    else findCapture pre ok rest

def digitsToNatAux : List Char → Nat → Option Nat
  | [], acc => some acc
  | c :: rest, acc =>
    if c.isDigit then digitsToNatAux rest (acc * 10 + (c.toNat - 48)) else none

/-- A non-empty all-digit run as a number. -/
def digitsToNat (l : List Char) : Option Nat :=
  if l.isEmpty then none else digitsToNatAux l 0

def pyIntParse : List Char → Option Int
  | '-' :: rest => (digitsToNat rest).map (fun n => -(n : Int))
  | '+' :: rest => (digitsToNat rest).map (fun n => (n : Int))
  | l => (digitsToNat l).map (fun n => (n : Int))

/-- Python `int(s)` (after `strip()`, as the source always does): parse
an optionally signed decimal or raise `ValueError`. -/
def pyInt (s : String) : Except String Int :=
  match pyIntParse (pyStrip s).data with
  | some n => Except.ok n
  | none => Except.error ("invalid literal for int() with base 10: " ++ pyRepr (pyStrip s))

/-- `line.split(":")[1]` for a line known to contain a colon: the text
between the first and second colon. -/
def afterColon (line : String) : String :=
  String.mk (((line.data.dropWhile (fun c => c ≠ ':')).drop 1).takeWhile
    (fun c => c ≠ ':'))

/-- The mutable result dict of `parse_vm_config`, with its five fixed
keys. -/
structure VMConfig where
  cores : Option Int
  memory : Option Int
  disk_size : Option String
  iso_name : Option String
  created_at : Option String
deriving DecidableEq, Repr

def optInt : Option Int → Scalar
  | some n => .int n
  | none => .null

def optStr : Option String → Scalar
  | some s => .str s
  | none => .null

/-- The dict returned by `parse_vm_config`, in source key order. -/
def VMConfig.toDict (d : VMConfig) : List (String × Scalar) :=
  [("cores", optInt d.cores), ("memory", optInt d.memory),
   ("disk_size", optStr d.disk_size), ("iso_name", optStr d.iso_name),
   ("created_at", optStr d.created_at)]

/-- One line of `parse_vm_config`'s loop body (the line is already
stripped).  The `int(...)` conversions may raise. -/
def parseLine (humanize : Nat → String) (d : VMConfig) (line : String) :
    Except String VMConfig :=
  if pyStartsWith line "cores:" then
    (pyInt (afterColon line)).map (fun n => { d with cores := some n })
  else if pyStartsWith line "memory:" then
    (pyInt (afterColon line)).map (fun n => { d with memory := some n })
  else if pyStartsWith line "scsi0:" then
    Except.ok (match findCapture "size=".data (fun c => c ≠ ',') line.data with
      | some cap => { d with disk_size := some (String.mk cap) }
      | none => d)
  else if pyStartsWith line "ide2:" then
    Except.ok (match findCapture "iso/".data (fun c => c ≠ ',') line.data with
      | some cap => { d with iso_name := some (String.mk cap) }
      | none => d)
  else if strContains line "ctime=" then
    Except.ok (match findCapture "ctime=".data Char.isDigit line.data with
      | some cap =>
        let ts := (digitsToNat cap).getD 0
        { d with created_at := some (humanize ts) }
      | none => d)
  else Except.ok d

/-- `parse_vm_config(config_text)`: line-oriented extraction of the five
resource fields; unmatched fields stay `None`. -/
def parse_vm_config (humanize : Nat → String) (config_text : String) :
    Except String (List (String × Scalar)) :=
  ((splitlines config_text).foldlM
    (fun d line => parseLine humanize d (pyStrip line))
    (⟨none, none, none, none, none⟩ : VMConfig)).map VMConfig.toDict

/-! ## `app/ukk_runner/checker/vm_checker.py`

`VMChecker`'s three methods wrap `ssh.run` calls with **no** exception
handling, so a raising remote call propagates to the caller (embedded as
`Except.error`). -/

/-- `find_vm`'s hit: the matching host's connection, its hostname line,
and the matched VM id. -/
structure FoundVM where
  node_ssh_connection : Node
  hostname : String
  vmid : String
deriving DecidableEq, Repr

/-- Scan the listing lines below the hostname: the first line whose
whitespace-split has at least two fields with field 1 equal to the VM
name yields field 0 as the VM id. -/
def scanListing (vm_name : String) : List String → Option String
  | [] => none
  | line :: rest =>
    match pySplit line with
    | p0 :: p1 :: _ => if p1 = vm_name then some p0 else scanListing vm_name rest
    | _ => scanListing vm_name rest

/-- `VMChecker.find_vm(vm_name)`: run `hostname && qm list` on each
candidate in order; an empty output skips the host; the first host whose
listing contains the VM name wins; no handler, so a raising `run`
propagates. -/
def find_vm (w : World) (ssh_clients : List Node) (vm_name : String) :
    Except String (Option FoundVM) :=
  match ssh_clients with
  | [] => Except.ok none
  | ssh :: rest =>
    match sshRun w ssh "hostname && qm list" false with
    | Except.error e => Except.error e
    | Except.ok res =>
      match splitlines res.out with
      | [] => find_vm w rest vm_name
      | l0 :: ls =>
        match scanListing vm_name ls with
        | some vmid => Except.ok (some ⟨ssh, pyStrip l0, vmid⟩)
        | none => find_vm w rest vm_name

/-- `VMChecker.check_resources`: `cat` the per-VM config and parse it;
no handler. -/
def check_resources (w : World) (node_ssh_connection : Node) (vmid : String) :
    Except String (List (String × Scalar)) :=
  match sshRun w node_ssh_connection
      ("cat /etc/pve/qemu-server/" ++ vmid ++ ".conf") false with
  | Except.error e => Except.error e
  | Except.ok res => parse_vm_config w.humanize res.out

/-- `VMChecker.check_status`: value of the first `status:` line, else
the literal `"unknown"`; no handler. -/
def check_status (w : World) (node_ssh_connection : Node) (vmid : String) :
    Except String String :=
  match sshRun w node_ssh_connection ("qm status " ++ vmid) false with
  | Except.error e => Except.error e
  | Except.ok res =>
    Except.ok (((splitlines res.out).find? (fun line => pyStartsWith line "status:")).map
      (fun line => pyStrip (afterColon line)) |>.getD "unknown")

/-! ## Common raw-dict helpers -/

/-- `(out + "\n" + err).strip() or None`: the stripped combined output,
or `None` when blank. -/
def strOrNull (s : String) : Scalar :=
  if pyStrip s = "" then .null else .str (pyStrip s)

def optScalarStr : Option String → Scalar
  | some s => .str s
  | none => .null

/-! ## `app/ukk_runner/checker/php_checker.py` -/

/-- The `modules_expected` argument of `check_php_modules`: `None`, a
list of module names, or a dict whose truthy-valued keys are taken. -/
inductive ModulesArg where
  | noneArg
  | listArg (mods : List String)
  | dictArg (d : List (String × Scalar))
deriving DecidableEq, Repr

def ModulesArg.toList : ModulesArg → List String
  | .noneArg => ["mysqli", "curl", "gd", "mbstring", "xml", "json", "zip",
      "openssl", "exif", "fileinfo", "intl"]
  | .dictArg d => (d.filter (fun p => p.2.truthy)).map Prod.fst
  | .listArg l => l

/-- `PHPChecker.check_php_binary(binary)`: `which <binary>`; found iff
stdout is non-blank; a raising `run` is caught (`except Exception:`)
and the cause is discarded. -/
def check_php_binary (w : World) (vm_ssh_connection : Node) (binary : String) : Raw :=
  let fpc : Bool × Option String × Scalar :=
    match sshRun w vm_ssh_connection ("which " ++ binary) false with
    | Except.ok res =>
      let found := (pyStrip res.out) ≠ ""
      (found, if found then some (pyStrip res.out) else none,
       strOrNull (res.out ++ "\n" ++ res.err))
    | Except.error _ => (false, none, .null)
  [("step", .s (.str "3.A Checking PHP Binary")),
   ("status", .s (.bool fpc.1)),
   ("path", .s (optScalarStr fpc.2.1)),
   ("message", .s (if fpc.1 then .null else .str "PHP binary not found")),
   ("command_output", .s fpc.2.2)]

/-- `PHPChecker.check_php_modules(modules_expected)`: `php -m`, one
presence entry per expected module; exceptions are caught and yield an
all-failed comparison. -/
def check_php_modules (w : World) (vm_ssh_connection : Node)
    (modules_expected : ModulesArg) : Raw :=
  let mods := modules_expected.toList
  let res : List (String × CmpEntry) × Bool × Scalar :=
    match sshRun w vm_ssh_connection "php -m" false with
    | Except.ok res =>
      let installed := ((splitlines res.out).map pyStrip).filter (fun l => l ≠ "")
      let comparison := mods.map (fun mod =>
        (mod, { expected := Scalar.bool true, actual := Scalar.bool (installed.contains mod),
                status := installed.contains mod }))
      (comparison, comparison.all (fun c => c.2.status),
       strOrNull (res.out ++ "\n" ++ res.err))
    | Except.error _ =>
      (mods.map (fun mod =>
        (mod, { expected := Scalar.bool true, actual := Scalar.bool false, status := false })),
       false, .null)
  [("step", .s (.str "3.B Checking PHP Modules")),
   ("status", .s (.bool res.2.1)),
   ("modules", .table res.1),
   ("command_output", .s res.2.2)]

/-! ## `app/ukk_runner/checker/web_server.py` -/

/-- `WebServerChecker.check_nginx_binary(expected_path="nginx")`. -/
def check_nginx_binary (w : World) (vm_ssh_connection : Node) (expected_path : String) : Raw :=
  let fpc : Bool × Option String × Scalar :=
    match sshRun w vm_ssh_connection ("which " ++ expected_path) false with
    | Except.ok res =>
      let found := (pyStrip res.out) ≠ ""
      (found, if found then some (pyStrip res.out) else none,
       strOrNull (res.out ++ "\n" ++ res.err))
    | Except.error _ => (false, none, .null)
  [("step", .s (.str "4.A Checking Nginx Binary")),
   ("status", .s (.bool fpc.1)),
   ("path", .s (optScalarStr fpc.2.1)),
   ("message", .s (if fpc.1 then .null else .str "Nginx binary not found")),
   ("command_output", .s fpc.2.2)]

/-- `WebServerChecker.check_nginx_service`: `systemctl is-active nginx`
(active iff stdout strips to `"active"`), then a sudo `systemctl status`
for diagnostics; a raise in either command is caught and reads as
inactive. -/
def check_nginx_service (w : World) (vm_ssh_connection : Node) : Raw :=
  let av : Bool × Scalar :=
    match sshRun w vm_ssh_connection "systemctl is-active nginx" false with
    | Except.ok res =>
      let active := (pyStrip res.out) = "active"
      match sshRun w vm_ssh_connection "systemctl status nginx --no-pager" true with
      | Except.ok st => (active, .str (pyStrip (st.out ++ "\n" ++ st.err)))
      | Except.error _ => (false, .null)
    | Except.error _ => (false, .null)
  [("step", .s (.str "4.B Checking Nginx Service")),
   ("status", .s (.bool av.1)),
   ("value", .s (.bool av.1)),
   ("message", .s (if av.1 then .null else .str "Nginx service not running")),
   ("system_output", .s av.2)]

/-- `WebServerChecker.check_nginx_config_syntax`: `nginx -t` (the source
passes an already-sudo-prefixed command *and* `use_sudo=True`, so the
wrapper is applied twice); success needs both the `syntax is ok` and the
`test is successful` markers in combined stdout+stderr. -/
def check_nginx_config_syntax (w : World) (vm_ssh_connection : Node) : Raw :=
  match sshRun w vm_ssh_connection "sudo -S -p \x27\x27 nginx -t" true with
  | Except.ok res =>
    let output := pyStrip (res.out ++ "\n" ++ res.err)
    let success := strContains output "syntax is ok" && strContains output "test is successful"
    [("step", .s (.str "4.D Checking Nginx Config Syntax")),
     ("status", .s (.bool success)),
     ("output", .s (.str output)),
     ("system_output", .s (.str output)),
     ("message", .s (if success then .null else .str "Nginx configuration test failed"))]
  | Except.error e =>
    [("step", .s (.str "4.D Checking Nginx Config Syntax")),
     ("status", .s (.bool false)),
     ("output", .s .null),
     ("message", .s (.str e))]

/-! ## `app/ukk_runner/checker/mysql_checker.py` -/

/-- `MySQLChecker._build_mysql_command(query, mysql_user, mysql_password)`:
sudo administrative form when no password is supplied, plain client with
`-p` only for a non-empty password. -/
def build_mysql_command (query : String) (mysql_user : String)
    (mysql_password : Option String) : String :=
  match mysql_password with
  | none => "sudo -S mysql -u " ++ mysql_user ++ " -e \"" ++ query ++ "\""
  | some "" => "mysql -u " ++ mysql_user ++ " -e \"" ++ query ++ "\""
  | some pw => "mysql -u " ++ mysql_user ++ " -p\"" ++ pw ++ "\" -e \"" ++ query ++ "\""

/-- `MySQLChecker.check_mysql_binary`: `which mysql`; the exception
branch records the cause as the message. -/
def check_mysql_binary (w : World) (vm_ssh_connection : Node) : Raw :=
  match sshRun w vm_ssh_connection "which mysql" false with
  | Except.ok res =>
    let found := (pyStrip res.out) ≠ ""
    [("step", .s (.str "5.A")), ("status", .s (.bool found)),
     ("path", .s (if found then .str (pyStrip res.out) else .null)),
     ("message", .s (if found then .null else .str "MySQL binary not found")),
     ("command_output", .s (strOrNull (res.out ++ "\n" ++ res.err)))]
  | Except.error e =>
    [("step", .s (.str "5.A")), ("status", .s (.bool false)),
     ("path", .s .null), ("message", .s (.str e))]

/-- `MySQLChecker.check_mysql_service`. -/
def check_mysql_service (w : World) (vm_ssh_connection : Node) : Raw :=
  match sshRun w vm_ssh_connection "systemctl is-active mysql" false with
  | Except.ok res =>
    let active := (pyStrip res.out) = "active"
    match sshRun w vm_ssh_connection "systemctl status mysql --no-pager" true with
    | Except.ok st =>
      [("step", .s (.str "5.B")), ("status", .s (.bool active)),
       ("value", .s (.bool active)),
       ("message", .s (if active then .null else .str "MySQL service not running")),
       ("system_output", .s (.str (pyStrip (st.out ++ "\n" ++ st.err))))]
    | Except.error e =>
      [("step", .s (.str "5.B")), ("status", .s (.bool false)),
       ("value", .s (.bool false)), ("message", .s (.str e))]
  | Except.error e =>
    [("step", .s (.str "5.B")), ("status", .s (.bool false)),
     ("value", .s (.bool false)), ("message", .s (.str e))]

/-- `MySQLChecker.check_database_exists(db_name, mysql_user,
mysql_password=None)`: administrative `SHOW DATABASES LIKE`, run with
sudo exactly when no password is supplied; exists iff the command
succeeded, stderr lacks `command not found`, and stdout contains the db
name. -/
def check_database_exists (w : World) (vm_ssh_connection : Node) (db_name : String)
    (mysql_user : String) (mysql_password : Option String) : Raw :=
  if pyStrip db_name = "" then
    [("step", .s (.str "5.C")), ("status", .s (.bool false)),
     ("database", .s (.str db_name)), ("message", .s (.str "DB name kosong"))]
  else
    let cmd := build_mysql_command ("SHOW DATABASES LIKE \x27" ++ db_name ++ "\x27;")
      mysql_user mysql_password
    match sshRun w vm_ssh_connection cmd (mysql_password = none) with
    | Except.ok res =>
      let cmd_ok := res.code = 0 && !(strContains (pyLower res.err) "command not found")
      let dbExists := cmd_ok && strContains res.out db_name
      [("step", .s (.str "5.C")), ("status", .s (.bool dbExists)),
       ("database", .s (.str db_name)),
       ("message", .s (if dbExists then .null
          else if (pyStrip res.err) ≠ "" then .str (pyStrip res.err)
          else .str ("DB \x27" ++ db_name ++ "\x27 not found"))),
       ("command_output", .s (strOrNull (res.out ++ "\n" ++ res.err)))]
    | Except.error e =>
      [("step", .s (.str "5.C")), ("status", .s (.bool false)),
       ("database", .s (.str db_name)), ("message", .s (.str e))]

/-- `MySQLChecker.check_database_user_exists(db_user, mysql_user,
mysql_password=None)`. -/
def check_database_user_exists (w : World) (vm_ssh_connection : Node) (db_user : String)
    (mysql_user : String) (mysql_password : Option String) : Raw :=
  if pyStrip db_user = "" then
    [("step", .s (.str "5.D")), ("status", .s (.bool false)),
     ("db_user", .s (.str db_user)), ("message", .s (.str "DB user kosong")),
     ("command_output", .s .null)]
  else
    let cmd := build_mysql_command
      ("SELECT User FROM mysql.user WHERE User = \x27" ++ db_user ++ "\x27;")
      mysql_user mysql_password
    match sshRun w vm_ssh_connection cmd (mysql_password = none) with
    | Except.ok res =>
      let cmd_ok := res.code = 0 && !(strContains (pyLower res.err) "command not found")
      let userExists := cmd_ok && strContains res.out db_user
      [("step", .s (.str "5.D")), ("status", .s (.bool userExists)),
       ("db_user", .s (.str db_user)),
       ("message", .s (if userExists then .null
          else if (pyStrip res.err) ≠ "" then .str (pyStrip res.err)
          else .str ("User \x27" ++ db_user ++ "\x27 not found"))),
       ("command_output", .s (strOrNull (res.out ++ "\n" ++ res.err)))]
    | Except.error e =>
      [("step", .s (.str "5.D")), ("status", .s (.bool false)),
       ("db_user", .s (.str db_user)), ("message", .s (.str e))]

/-- `MySQLChecker.check_wordpress_db_connection(db_name, db_user,
db_password)`: end-to-end `USE <db>` login with the application
credentials; success iff exit code 0. -/
def check_wordpress_db_connection (w : World) (vm_ssh_connection : Node)
    (db_name db_user db_password : String) : Raw :=
  let cmd := "mysql -u " ++ db_user ++ " -p\"" ++ db_password ++ "\" -e \"USE " ++
    db_name ++ ";\""
  match sshRun w vm_ssh_connection cmd false with
  | Except.ok res =>
    let success := res.code = 0
    [("step", .s (.str "5.E")), ("status", .s (.bool success)),
     ("message", .s (if success then .null else .str (pyStrip res.err))),
     ("command_output", .s (strOrNull (res.out ++ "\n" ++ res.err)))]
  | Except.error e =>
    [("step", .s (.str "5.E")), ("status", .s (.bool false)),
     ("message", .s (.str e))]

/-! ## `app/ukk_runner/checker/wp_checker.py` -/

/-- `WordPressChecker.__init__` inputs (`vm["url"|"username"|"password"]`). -/
structure WPInputs where
  url : String
  username : String
  password : String
deriving DecidableEq, Repr

/-- Truthiness of `session.cookies.get_dict().get(name)`: a present,
non-empty cookie value. -/
def cookieTruthy (cookies : List (String × String)) (name : String) : Bool :=
  match dictGet cookies name with
  | some v => v ≠ ""
  | none => false

/-- `WordPressChecker.check_wordpress_login()`: GET the login page, POST
the credential form, then accept any one of three success signals
(admin-area URL marker, logged-in cookie, dashboard text).  Exceptions
from either HTTP call are caught; the modelled transport reports a plain
cause string, for which the source's `getattr(e, "response", ...)`
chain yields `None` as the status code. -/
def check_wordpress_login (w : World) (vm : WPInputs) : Raw :=
  let login_url := vm.url ++ "/wp-login.php"
  let payload := [("log", vm.username), ("pwd", vm.password),
    ("wp-submit", "Log In"), ("redirect_to", vm.url ++ "/wp-admin/"),
    ("testcookie", "1")]
  let errRaw : String → Raw := fun e =>
    [("step", .s (.str "6.B Checking CMS WordPress Login")),
     ("status", .s (.bool false)),
     ("url", .s (.str vm.url)), ("username", .s (.str vm.username)),
     ("status_code", .s .null), ("message", .s (.str e))]
  match w.wpGet login_url with
  | Except.error e => errRaw e
  | Except.ok _ =>
    match w.wpPost login_url payload with
    | Except.error e => errRaw e
    | Except.ok response =>
      let success := strContains response.url "wp-admin"
        || cookieTruthy response.cookies "wordpress_logged_in"
        || strContains (pyLower response.text) "dashboard"
      [("step", .s (.str "6.B Checking CMS WordPress Login")),
       ("status", .s (.bool success)),
       ("url", .s (.str vm.url)), ("username", .s (.str vm.username)),
       ("status_code", .s (.int response.status_code)),
       ("message", .s (if success then .null else .str "Login failed"))]

/-! ## `app/ukk_runner/checker/dns_checker.py` -/

/-- `DNSChecker.check_bind_binary`: `which named`. -/
def check_bind_binary (w : World) (vm_ssh_connection : Node) : Raw :=
  match sshRun w vm_ssh_connection "which named" false with
  | Except.ok res =>
    let found := (pyStrip res.out) ≠ ""
    [("step", .s (.str "7.A Checking DNS Binary")), ("status", .s (.bool found)),
     ("path", .s (if found then .str (pyStrip res.out) else .null)),
     ("message", .s (if found then .null else .str "Bind9 binary not found")),
     ("command_output", .s (strOrNull (res.out ++ "\n" ++ res.err)))]
  | Except.error e =>
    [("step", .s (.str "7.A Checking DNS Binary")), ("status", .s (.bool false)),
     ("message", .s (.str e))]

/-- `DNSChecker.check_bind_service`. -/
def check_bind_service (w : World) (vm_ssh_connection : Node) : Raw :=
  match sshRun w vm_ssh_connection "systemctl is-active bind9" false with
  | Except.ok res =>
    let active := (pyStrip res.out) = "active"
    match sshRun w vm_ssh_connection "systemctl status bind9 --no-pager" true with
    | Except.ok st =>
      [("step", .s (.str "7.B Checking DNS Service")), ("status", .s (.bool active)),
       ("message", .s (if active then .null else .str "Bind9 service not running")),
       ("system_output", .s (.str (pyStrip (st.out ++ "\n" ++ st.err))))]
    | Except.error e =>
      [("step", .s (.str "7.B Checking DNS Service")), ("status", .s (.bool false)),
       ("message", .s (.str e))]
  | Except.error e =>
    [("step", .s (.str "7.B Checking DNS Service")), ("status", .s (.bool false)),
     ("message", .s (.str e))]

/-- The resolver-failure test shared by both DNS probes: exit code 0 and
no `connection refused` / `could not be reached` marker in the combined
lowered output. -/
def digOk (res : RunRes) : Bool :=
  res.code = 0
    && !(strContains (pyLower (res.out ++ "\n" ++ res.err)) "connection refused")
    && !(strContains (pyLower (res.out ++ "\n" ++ res.err)) "could not be reached")

/-- `DNSChecker.check_forward_dns(domain, expected_ip)`: `dig <domain>
@localhost +short`; correct iff the resolver answered and the expected
address occurs as a substring of the answer.  (The guard guarantees
`expected_ip` is truthy, so the source's `cmd_ok and expected_ip and
...` chain is boolean.) -/
def check_forward_dns (w : World) (vm_ssh_connection : Node)
    (domain expected_ip : String) : Raw :=
  if pyStrip domain = "" || pyStrip expected_ip = "" then
    [("step", .s (.str "7.C Checking Forward DNS")), ("status", .s (.bool false)),
     ("domain", .s (.str domain)), ("expected_ip", .s (.str expected_ip)),
     ("actual_ip", .s (.str "")),
     ("message", .s (.str "Domain atau expected IP kosong")),
     ("command_output", .s .null)]
  else
    match sshRun w vm_ssh_connection ("dig " ++ domain ++ " @localhost +short") false with
    | Except.ok res =>
      let resolved_ip := (pyStrip res.out)
      let cmd_ok := digOk res
      let correct := cmd_ok && strContains resolved_ip expected_ip
      [("step", .s (.str "7.C Checking Forward DNS")), ("status", .s (.bool correct)),
       ("domain", .s (.str domain)), ("expected_ip", .s (.str expected_ip)),
       ("actual_ip", .s (.str resolved_ip)),
       ("message", .s (if correct then .null
          else if !cmd_ok then .str "Forward DNS gagal / mismatch"
          else .str "Forward DNS mismatch")),
       ("command_output", .s (strOrNull (res.out ++ "\n" ++ res.err)))]
    | Except.error e =>
      [("step", .s (.str "7.C Checking Forward DNS")), ("status", .s (.bool false)),
       ("message", .s (.str e))]

/-- `DNSChecker.check_reverse_dns(ip_address, expected_domain)`:
`dig -x <ip> @localhost +short` with substring containment of the
expected domain. -/
def check_reverse_dns (w : World) (vm_ssh_connection : Node)
    (ip_address expected_domain : String) : Raw :=
  if pyStrip ip_address = "" || pyStrip expected_domain = "" then
    [("step", .s (.str "7.D Checking Reverse DNS")), ("status", .s (.bool false)),
     ("ip", .s (.str ip_address)), ("expected_domain", .s (.str expected_domain)),
     ("actual_domain", .s (.str "")),
     ("message", .s (.str "IP atau expected domain kosong")),
     ("command_output", .s .null)]
  else
    match sshRun w vm_ssh_connection ("dig -x " ++ ip_address ++ " @localhost +short") false with
    | Except.ok res =>
      let resolved_domain := (pyStrip res.out)
      let cmd_ok := digOk res
      let correct := cmd_ok && strContains resolved_domain expected_domain
      [("step", .s (.str "7.D Checking Reverse DNS")), ("status", .s (.bool correct)),
       ("ip", .s (.str ip_address)), ("expected_domain", .s (.str expected_domain)),
       ("actual_domain", .s (.str resolved_domain)),
       ("message", .s (if correct then .null
          else if !cmd_ok then .str "Reverse DNS gagal / mismatch"
          else .str "Reverse DNS mismatch")),
       ("command_output", .s (strOrNull (res.out ++ "\n" ++ res.err)))]
    | Except.error e =>
      [("step", .s (.str "7.D Checking Reverse DNS")), ("status", .s (.bool false)),
       ("message", .s (.str e))]

/-! ## Test specification (`data` payload consumed by `TestRunner`)

The caller-supplied spec, with exactly the fields the runner reads
(it arrives pre-validated per the service contract). -/

structure VMInputs where
  name : String
  host : String
  user : String
  password : String
deriving DecidableEq, Repr

structure VMExpected where
  resources : List (String × Scalar)
  vm_status : Option String
deriving DecidableEq, Repr

structure VMStage where
  inputs : VMInputs
  expected : VMExpected
deriving DecidableEq, Repr

structure PHPExpected where
  modules : ModulesArg
deriving DecidableEq, Repr

structure PHPStage where
  expected : PHPExpected
deriving DecidableEq, Repr

structure MySQLInputs where
  db_name : String
  db_user : String
  db_password : String
deriving DecidableEq, Repr

structure MySQLStage where
  inputs : MySQLInputs
deriving DecidableEq, Repr

structure WPStage where
  inputs : WPInputs
deriving DecidableEq, Repr

structure DNSExpected where
  domain : String
  ip : String
deriving DecidableEq, Repr

structure DNSStage where
  expected : DNSExpected
deriving DecidableEq, Repr

structure TestSpec where
  vm_proxmox : VMStage
  vm_ubuntu : VMStage
  php : PHPStage
  mysql : MySQLStage
  wordpress : WPStage
  dns : DNSStage
deriving DecidableEq, Repr

/-- Python `str()` of a scalar, for the runner's f-string messages. -/
def Scalar.pyStr : Scalar → String
  | .null => "None"
  | .bool true => "True"
  | .bool false => "False"
  | .int n => toString n
  | .str s => s

/-! ## `app/ukk_runner/runner.py`

The generator `TestRunner.run` is embedded as the full list of events it
would yield together with how it terminates.  `Failure.stop` models
`TestStopException`.

Modelled from the spec: `app/ukk_runner/exceptions.py` (imported by the
runner but absent from the sources) — per the spec's fatal-stop design,
`TestStopException` is a plain exception type carrying a human-readable
stop reason and no further behaviour. -/

inductive Failure where
  | stop (msg : String)
  | exc (msg : String)
deriving DecidableEq, Repr

inductive Event where
  | start
  | check (r : CheckResult)
  | finished (s : Summary)
deriving DecidableEq, Repr

/-- How the generator terminates: exhaustion, `TestStopException`, or
any other exception. -/
inductive Term where
  | normal
  | stop (msg : String)
  | exc (msg : String)
deriving DecidableEq, Repr

def Failure.toTerm : Failure → Term
  | .stop m => Term.stop m
  | .exc m => Term.exc m

structure GenOut where
  events : List Event
  term : Term
deriving DecidableEq, Repr

/-- The node-connection loop at the top of `TestRunner.run`: connect
each configured Proxmox node in order; a raising `connect` propagates. -/
def connectAll (w : World) : List Node → Except String Unit
  | [] => Except.ok ()
  | n :: rest =>
    match w.connect n with
    | Except.error e => Except.error e
    | Except.ok _ => connectAll w rest

/-- `TestRunner.run_proxmox`.  Returns the emitted check results and
either the freshly connected Proxmox SSH client (`self.pve_ssh`) or the
failure that unwound the stage. -/
def run_proxmox (w : World) (data : TestSpec) (nodes : List Node) :
    List CheckResult × Except Failure Node :=
  match find_vm w nodes data.vm_proxmox.inputs.name with
  | Except.error e => ([], Except.error (.exc e))
  | Except.ok none =>
    let result := format_result "proxmox" "PVE-01" "Validate VM Exists"
      [("status", .s (.bool false)), ("message", .s (.str "VM not found"))] 10
    ([result], Except.error (.stop "Proxmox VM not found. Cannot continue tests."))
  | Except.ok (some vm) =>
    let r1 := format_result "proxmox" "PVE-01" "Validate VM Exists"
      [("status", .s (.bool true))] 5
    match check_resources w vm.node_ssh_connection vm.vmid with
    | Except.error e => ([r1], Except.error (.exc e))
    | Except.ok resources =>
      let results := compare resources data.vm_proxmox.expected.resources
      let resResults := results.map (fun kv =>
        format_result "proxmox" ("PVE-RES-" ++ (pyUpper kv.1))
          ("Validate Resource " ++ kv.1)
          [("status", .s (.bool kv.2.status)),
           ("message", .s (.str ("expected=" ++ kv.2.expected.pyStr ++
             " actual=" ++ kv.2.actual.pyStr)))] 5)
      match check_status w vm.node_ssh_connection vm.vmid with
      | Except.error e => (r1 :: resResults, Except.error (.exc e))
      | Except.ok status =>
        let expected := pyStrip (match data.vm_proxmox.expected.vm_status with
          | some s => if s = "" then "running" else s
          | none => "running")
        let status_ok := pyLower (pyStrip status) = pyLower expected
        let r2 := format_result "proxmox" "PVE-02" "Validate VM Running"
          [("status", .s (.bool status_ok)),
           ("expected", .s (.str expected)),
           ("actual", .s (.str (if status = "" then "unknown" else status))),
           ("message", .s (if status_ok then .null
              else .str ("expected vm_status=" ++ pyRepr expected ++
                ", actual=" ++ pyRepr status)))] 5
        let pveNode : Node := ⟨data.vm_proxmox.inputs.host,
          data.vm_proxmox.inputs.user, data.vm_proxmox.inputs.password⟩
        match w.connect pveNode with
        | Except.ok _ =>
          let r3 := format_result "proxmox" "PVE-03" "Validate Proxmox SSH Access"
            [("status", .s (.bool true)), ("message", .s .null)] 5
          (r1 :: resResults ++ [r2, r3], Except.ok pveNode)
        | Except.error e =>
          let r3 := format_result "proxmox" "PVE-03" "Validate Proxmox SSH Access"
            [("status", .s (.bool false)), ("message", .s (.str e))] 5
          (r1 :: resResults ++ [r2, r3],
           Except.error (.stop ("Proxmox SSH Access gagal. Test dihentikan. Error: " ++ e)))

/-- `TestRunner.run_ubuntu`: like the Proxmox stage but scanning only
`self.pve_ssh`, with a bare `{"status": False}` raw on the not-found
path and a plain equality test against `"running"`. -/
def run_ubuntu (w : World) (data : TestSpec) (pve_ssh : Node) :
    List CheckResult × Except Failure Node :=
  match find_vm w [pve_ssh] data.vm_ubuntu.inputs.name with
  | Except.error e => ([], Except.error (.exc e))
  | Except.ok none =>
    let result := format_result "ubuntu" "UBU-01" "Validate Ubuntu VM Exists"
      [("status", .s (.bool false))] 10
    ([result], Except.error (.stop "Ubuntu VM not found. Cannot continue tests."))
  | Except.ok (some vm) =>
    let r1 := format_result "ubuntu" "UBU-01" "Validate Ubuntu VM Exists"
      [("status", .s (.bool true))] 5
    match check_resources w pve_ssh vm.vmid with
    | Except.error e => ([r1], Except.error (.exc e))
    | Except.ok resources =>
      let results := compare resources data.vm_ubuntu.expected.resources
      let resResults := results.map (fun kv =>
        format_result "ubuntu" ("UBU-RES-" ++ (pyUpper kv.1))
          ("Validate Ubuntu Resource " ++ kv.1)
          [("status", .s (.bool kv.2.status)),
           ("message", .s (.str ("expected=" ++ kv.2.expected.pyStr ++
             " actual=" ++ kv.2.actual.pyStr)))] 5)
      match check_status w pve_ssh vm.vmid with
      | Except.error e => (r1 :: resResults, Except.error (.exc e))
      | Except.ok status =>
        let r2 := format_result "ubuntu" "UBU-02" "Validate Ubuntu Running"
          [("status", .s (.bool (status = "running")))] 5
        let ubuNode : Node := ⟨data.vm_ubuntu.inputs.host,
          data.vm_ubuntu.inputs.user, data.vm_ubuntu.inputs.password⟩
        match w.connect ubuNode with
        | Except.ok _ =>
          let r3 := format_result "ubuntu" "UBU-03" "Validate Ubuntu SSH Access"
            [("status", .s (.bool true)), ("message", .s .null)] 5
          (r1 :: resResults ++ [r2, r3], Except.ok ubuNode)
        | Except.error e =>
          let r3 := format_result "ubuntu" "UBU-03" "Validate Ubuntu SSH Access"
            [("status", .s (.bool false)), ("message", .s (.str e))] 5
          (r1 :: resResults ++ [r2, r3],
           Except.error (.stop ("Ubuntu SSH Access gagal. Test dihentikan. Error: " ++ e)))

/-- `TestRunner.run_php`: two checks, default score. -/
def run_php (w : World) (data : TestSpec) (ubuntu_ssh : Node) : List CheckResult :=
  [format_result "php" "PHP-01" "Validate PHP Binary"
     (check_php_binary w ubuntu_ssh "php") 5,
   format_result "php" "PHP-02" "Validate PHP Modules"
     (check_php_modules w ubuntu_ssh data.php.expected.modules) 5]

/-- `TestRunner.run_web`: the three nginx checks, default score. -/
def run_web (w : World) (ubuntu_ssh : Node) : List CheckResult :=
  [format_result "web" "WEB-01" "Validate Nginx Binary"
     (check_nginx_binary w ubuntu_ssh "nginx") 5,
   format_result "web" "WEB-02" "Validate Nginx Service"
     (check_nginx_service w ubuntu_ssh) 5,
   format_result "web" "WEB-03" "Validate Nginx Config Syntax"
     ( check_nginx_config_syntax w ubuntu_ssh) 5]

/-- `TestRunner.run_mysql`: four default-score checks plus the
double-weight end-to-end connection check. -/
def run_mysql (w : World) (data : TestSpec) (ubuntu_ssh : Node) : List CheckResult :=
  [format_result "mysql" "SQL-01" "Validate MySQL Binary"
     (check_mysql_binary w ubuntu_ssh) 5,
   format_result "mysql" "SQL-02" "Validate MySQL Service"
     (check_mysql_service w ubuntu_ssh) 5,
   format_result "mysql" "SQL-03" "Validate Database Exists"
     (check_database_exists w ubuntu_ssh data.mysql.inputs.db_name "root" none) 5,
   format_result "mysql" "SQL-04" "Validate DB User Exists"
     (check_database_user_exists w ubuntu_ssh data.mysql.inputs.db_user "root" none) 5,
   format_result "mysql" "SQL-05" "Validate DB Connection"
     (check_wordpress_db_connection w ubuntu_ssh data.mysql.inputs.db_name
       data.mysql.inputs.db_user data.mysql.inputs.db_password) 10]

/-- `TestRunner.run_wordpress`: the single triple-weight CMS login check. -/
def run_wordpress (w : World) (data : TestSpec) : List CheckResult :=
  [format_result "wordpress" "WP-01" "Validate WordPress Login"
     (check_wordpress_login w data.wordpress.inputs) 15]

/-- `TestRunner.run_dns`: four default-score checks. -/
def run_dns (w : World) (data : TestSpec) (ubuntu_ssh : Node) : List CheckResult :=
  [format_result "dns" "DNS-01" "Validate BIND Binary"
     (check_bind_binary w ubuntu_ssh) 5,
   format_result "dns" "DNS-02" "Validate DNS Service"
     (check_bind_service w ubuntu_ssh) 5,
   format_result "dns" "DNS-03" "Validate Forward DNS"
     (check_forward_dns w ubuntu_ssh data.dns.expected.domain data.dns.expected.ip) 5,
   format_result "dns" "DNS-04" "Validate Reverse DNS"
     (check_reverse_dns w ubuntu_ssh data.dns.expected.ip data.dns.expected.domain) 5]

/-- `self.score` at the end of a full run: every yielded result was
`add`ed, in order. -/
def summaryOf (rs : List CheckResult) : Summary :=
  (rs.foldl ScoreManager.add ScoreManager.init).summary

/-- The events of a run that unwound before `Finished`. -/
def abortEvents (rs : List CheckResult) : List Event :=
  Event.start :: rs.map Event.check

/-- The events of a run that reached the terminal summary. -/
def finishEvents (rs : List CheckResult) : List Event :=
  Event.start :: rs.map Event.check ++ [Event.finished (summaryOf rs)]

/-- `TestRunner.run`: yield `start`, connect the nodes, run the stages
in fixed order, and yield the summary; a `TestStopException` or any
other exception ends the generator after the events already yielded. -/
def TestRunner.run (w : World) (data : TestSpec) (nodes : List Node) : GenOut :=
  match connectAll w nodes with
  | Except.error e => ⟨abortEvents [], .exc e⟩
  | Except.ok _ =>
    match run_proxmox w data nodes with
    | (rs1, Except.error f) => ⟨abortEvents rs1, f.toTerm⟩
    | (rs1, Except.ok pve_ssh) =>
      match run_ubuntu w data pve_ssh with
      | (rs2, Except.error f) => ⟨abortEvents (rs1 ++ rs2), f.toTerm⟩
      | (rs2, Except.ok ubuntu_ssh) =>
        let rs := rs1 ++ rs2 ++ run_php w data ubuntu_ssh ++ run_web w ubuntu_ssh
          ++ run_mysql w data ubuntu_ssh ++ run_wordpress w data
          ++ run_dns w data ubuntu_ssh
        ⟨finishEvents rs, .normal⟩

/-! ## `app/routers/ukk.py` — the cancellable execution bridge

`run_sync` iterates the generator on a worker thread: for each yielded
item it first tests the shared `cancel_event` and, if set, enqueues a
`("_stop", "Test cancelled by user.")` marker and returns without
forwarding the item; otherwise it forwards the item.  When the generator
ends it enqueues `("_stop", None)`; a `TestStopException` or any other
exception enqueues `("_stop", str(e))`.

Cancellation is modelled by the index of the first flag test that
observes the (monotone) flag as set: `cancelFrom = some c` means every
test with index `≥ c` sees the flag. -/

inductive QItem where
  | ev (e : Event)
  | stopItem (reason : Option String)
deriving DecidableEq, Repr

/-- Whether the `i`-th flag test observes the cancellation flag. -/
def cancelSet (cancelFrom : Option Nat) (i : Nat) : Bool :=
  match cancelFrom with
  | some c => c ≤ i
  | none => false

def cancelledMsg : String := "Test cancelled by user."

/-- The terminal queue marker for each way the generator can end. -/
def termItem : Term → QItem
  | .normal => .stopItem none
  | .stop m => .stopItem (some m)
  | .exc m => .stopItem (some m)

/-- The `for r in runner.run()` loop of `run_sync`, from the `i`-th
yielded item on. -/
def runSyncGo (t : Term) (cancelFrom : Option Nat) : List Event → Nat → List QItem
  | [], _ => [termItem t]
  | e :: rest, i =>
    if cancelSet cancelFrom i then [QItem.stopItem (some cancelledMsg)]
    else QItem.ev e :: runSyncGo t cancelFrom rest (i + 1)

/-- `run_sync`: everything the worker pushes onto the queue, in order. -/
def run_sync (g : GenOut) (cancelFrom : Option Nat) : List QItem :=
  runSyncGo g.term cancelFrom g.events 0

/-- What the WebSocket consumer sends: forwarded events, and a final
`{"event": "error", "message": stop_error}` when the run stopped with a
reason. -/
inductive Sent where
  | ev (e : Event)
  | err (message : String)
deriving DecidableEq, Repr

/-- The consumer loop of `ukk_test_websocket`: forward queue items until
the `_stop` marker, then send one error event iff the marker carries a
reason (transport assumed reliable — send failures are the caller's
concern per the spec). -/
def deliver : List QItem → List Sent
  | [] => []
  | QItem.ev e :: rest => Sent.ev e :: deliver rest
  | QItem.stopItem (some m) :: _ => [Sent.err m]
  | QItem.stopItem none :: _ => []

/-- The full caller-visible event stream of one WebSocket test run. -/
def ukkStream (w : World) (data : TestSpec) (nodes : List Node)
    (cancelFrom : Option Nat) : List Sent :=
  deliver (run_sync (TestRunner.run w data nodes) cancelFrom)

/-- A terminal event: the `finished` summary event or an error-style
stop event. -/
def isTerminal : Sent → Bool
  | .ev (.finished _) => true
  | .err _ => true
  | _ => false

/-- No `finished` event occurs in the list. -/
def noFin (l : List Event) : Prop := ∀ e ∈ l, ∀ s, e ≠ Event.finished s

/-- Whether `find_vm`'s parse of one host's `hostname && qm list` output
contains the requested VM name (first line is the hostname, later lines
are `<vm-id> <vm-name> ...`). -/
def vmInListing (out vm_name : String) : Bool :=
  match splitlines out with
  | [] => false
  | _ :: ls => (scanListing vm_name ls).isSome

/-! ## Concrete fixtures for witnesses and counterexamples -/

/-- A well-formed test payload used by the concrete scenarios. -/
def specA : TestSpec :=
  { vm_proxmox := ⟨⟨"vm1", "10.0.0.5", "root", "pw"⟩, ⟨[("cores", .int 2)], none⟩⟩
    vm_ubuntu := ⟨⟨"ubuvm", "10.0.0.6", "ubuntu", "pw2"⟩, ⟨[("memory", .int 2048)], none⟩⟩
    php := ⟨⟨.listArg ["mysqli"]⟩⟩
    mysql := ⟨⟨"wp", "wpuser", "secret"⟩⟩
    wordpress := ⟨⟨"http://10.0.0.6", "admin", "pw"⟩⟩
    dns := ⟨⟨"example.com", "10.0.0.6"⟩⟩ }

def node1 : Node := ⟨"pve1.local", "root", "nodepw"⟩

/-- A hypervisor whose inventory listing lacks `specA`'s VM name. -/
def wNotFound : World :=
  { connect := fun _ => .ok ()
    exec := fun _ _ => .ok ⟨"pve1\n100 othervm running\n", "", 0⟩
    humanize := fun _ => ""
    wpGet := fun _ => .error "no http"
    wpPost := fun _ _ => .error "no http" }

/-- A hypervisor whose inventory listing contains both requested VMs. -/
def wHappy : World :=
  { connect := fun _ => .ok ()
    exec := fun _ _ => .ok ⟨"pve1\n100 vm1 running\n101 ubuvm running\n", "", 0⟩
    humanize := fun _ => ""
    wpGet := fun _ => .error "no http"
    wpPost := fun _ _ => .error "no http" }

/-- A world in which every remote call raises with cause `"boom"`. -/
def wFail : World :=
  { connect := fun _ => .ok ()
    exec := fun _ _ => .error "boom"
    humanize := fun _ => ""
    wpGet := fun _ => .error "boom"
    wpPost := fun _ _ => .error "boom" }

/-- The raw dict's `status` entry is present and boolean — the shape
every checker produces on every path, which keeps the formatter's
`"error"` branch unreachable for checker results. -/
def StatusIsBoolean (raw : Raw) : Prop :=
  ∃ b : Bool, dictGet raw "status" = some (RV.s (.bool b))

/-! ## Generic lemmas about the embedded definitions -/

lemma dictGet_cons {α : Type} (a k : String) (b : α) (t : List (String × α)) :
    dictGet ((a, b) :: t) k = if a = k then some b else dictGet t k := by
  simp only [dictGet, List.find?]
  by_cases h : a = k <;> simp [h]

lemma format_result_max_score (c sc sn : String) (raw : Raw) (m : Int) :
    (format_result c sc sn raw m).max_score = m := rfl

lemma format_result_status_of_true (c sc sn : String) (raw : Raw) (m : Int)
    (h : dictGet raw "status" = some (RV.s (.bool true))) :
    (format_result c sc sn raw m).status = "success" ∧
      (format_result c sc sn raw m).score = m := by
  simp [format_result, h]

lemma format_result_status_of_false (c sc sn : String) (raw : Raw) (m : Int)
    (h : dictGet raw "status" = some (RV.s (.bool false))) :
    (format_result c sc sn raw m).status = "failed" ∧
      (format_result c sc sn raw m).score = 0 := by
  simp [format_result, h]

/-! ## Theorems for the claims -/

/-- **C3.** `format_result` maps the raw `status` tri-state to
status/score: `True` gives `"success"` with the full `max_score`;
`False` gives `"failed"` with 0; any other present value gives
`"error"` with 0; and the earned score is always 0 or `max_score`,
never strictly between. -/
theorem format_result_tristate (c sc sn : String) (raw : Raw) (m : Int) :
    (dictGet raw "status" = some (RV.s (.bool true)) →
      (format_result c sc sn raw m).status = "success" ∧
      (format_result c sc sn raw m).score = m)
    ∧ (dictGet raw "status" = some (RV.s (.bool false)) →
      (format_result c sc sn raw m).status = "failed" ∧
      (format_result c sc sn raw m).score = 0)
    ∧ (∀ v, dictGet raw "status" = some v → v ≠ RV.s (.bool true) →
      v ≠ RV.s (.bool false) →
      (format_result c sc sn raw m).status = "error" ∧
      (format_result c sc sn raw m).score = 0)
    ∧ ((format_result c sc sn raw m).score = 0 ∨
      (format_result c sc sn raw m).score = (format_result c sc sn raw m).max_score) := by
  refine ⟨format_result_status_of_true c sc sn raw m,
    format_result_status_of_false c sc sn raw m, ?_, ?_⟩
  · intro v hv hvt hvf
    simp [format_result, hv, hvt, hvf]
  · simp only [format_result, format_result_max_score]
    split_ifs <;> simp

/-- Witness for C3: the three concrete raw dicts of the spec's example,
including the ambiguous string `"boom"`. -/
theorem format_result_tristate_witness :
    (format_result "t" "T-01" "t" [("status", RV.s (.bool true))] 5).status = "success" ∧
    (format_result "t" "T-01" "t" [("status", RV.s (.bool true))] 5).score = 5 ∧
    (format_result "t" "T-01" "t" [("status", RV.s (.bool false))] 5).status = "failed" ∧
    (format_result "t" "T-01" "t" [("status", RV.s (.bool false))] 5).score = 0 ∧
    (format_result "t" "T-01" "t" [("status", RV.s (.str "boom"))] 5).status = "error" ∧
    (format_result "t" "T-01" "t" [("status", RV.s (.str "boom"))] 5).score = 0 := by
  have h1 := (format_result_tristate "t" "T-01" "t" [("status", RV.s (.bool true))] 5).1
    (by decide)
  have h2 := (format_result_tristate "t" "T-01" "t" [("status", RV.s (.bool false))] 5).2.1
    (by decide)
  have h3 := (format_result_tristate "t" "T-01" "t" [("status", RV.s (.str "boom"))] 5).2.2.1
    (RV.s (.str "boom")) (by decide) (by decide) (by decide)
  exact ⟨h1.1, h1.2, h2.1, h2.2, h3.1, h3.2⟩

/-- **C10.** A raw dict with no `"status"` key at all is defaulted to
`False` by `raw_result.get("status", False)`, so it formats as
`"failed"` with score 0 — not as the ambiguous `"error"` case. -/
theorem missing_status_defaults_failed (c sc sn : String) (raw : Raw) (m : Int)
    (h : dictGet raw "status" = none) :
    (format_result c sc sn raw m).status = "failed" ∧
      (format_result c sc sn raw m).score = 0 := by
  simp [format_result, h]

/-- Witness for C10: the empty raw dict. -/
theorem missing_status_defaults_failed_witness :
    (format_result "t" "T-01" "t" [] 5).status = "failed" ∧
      (format_result "t" "T-01" "t" [] 5).score = 0 :=
  missing_status_defaults_failed "t" "T-01" "t" [] 5 (by decide)

lemma gradeOf_eq_A (p : ℚ) : gradeOf p = "A" ↔ 90 ≤ p := by
  unfold gradeOf
  split_ifs with h1 h2 h3 <;>
    exact ⟨fun hx => by first | exact h1 | exact absurd hx (by decide),
           fun hx => by first | rfl | exact ((by linarith : False).elim)⟩

lemma gradeOf_eq_B (p : ℚ) : gradeOf p = "B" ↔ 80 ≤ p ∧ p < 90 := by
  unfold gradeOf
  split_ifs with h1 h2 h3
  · exact ⟨fun hx => absurd hx (by decide), fun hx => (by linarith [hx.2] : False).elim⟩
  · exact ⟨fun _ => ⟨h2, not_le.mp h1⟩, fun _ => rfl⟩
  · exact ⟨fun hx => absurd hx (by decide), fun hx => absurd hx.1 h2⟩
  · exact ⟨fun hx => absurd hx (by decide), fun hx => absurd hx.1 h2⟩

lemma gradeOf_eq_C (p : ℚ) : gradeOf p = "C" ↔ 70 ≤ p ∧ p < 80 := by
  unfold gradeOf
  split_ifs with h1 h2 h3
  · exact ⟨fun hx => absurd hx (by decide), fun hx => (by linarith [hx.2] : False).elim⟩
  · exact ⟨fun hx => absurd hx (by decide), fun hx => (by linarith [hx.2] : False).elim⟩
  · exact ⟨fun _ => ⟨h3, not_le.mp h2⟩, fun _ => rfl⟩
  · exact ⟨fun hx => absurd hx (by decide), fun hx => absurd hx.1 h3⟩

lemma gradeOf_eq_D (p : ℚ) : gradeOf p = "D" ↔ p < 70 := by
  unfold gradeOf
  split_ifs with h1 h2 h3
  · exact ⟨fun hx => absurd hx (by decide), fun hx => (by linarith : False).elim⟩
  · exact ⟨fun hx => absurd hx (by decide), fun hx => (by linarith : False).elim⟩
  · exact ⟨fun hx => absurd hx (by decide), fun hx => (by linarith : False).elim⟩
  · exact ⟨fun _ => not_le.mp h3, fun _ => rfl⟩

/-- **C4.** `ScoreManager.summary` reports `total/max*100` rounded to two
decimals, reports 0 when `max` is 0 (no division by zero), and the grade
is a pure function of the percentage with inclusive lower bounds 90/80/70
for A/B/C and D otherwise (the source computes the grade from the exact,
unrounded percentage; the rounding affects only the reported field). -/
theorem score_summary_spec (sm : ScoreManager) :
    (0 < sm.max_score → sm.summary.percentage =
      round2 ((sm.total_score : ℚ) / (sm.max_score : ℚ) * 100))
    ∧ (sm.max_score = 0 → sm.summary.percentage = 0)
    ∧ (sm.summary.grade = "A" ↔ 90 ≤ pctOf sm.total_score sm.max_score)
    ∧ (sm.summary.grade = "B" ↔ 80 ≤ pctOf sm.total_score sm.max_score ∧
        pctOf sm.total_score sm.max_score < 90)
    ∧ (sm.summary.grade = "C" ↔ 70 ≤ pctOf sm.total_score sm.max_score ∧
        pctOf sm.total_score sm.max_score < 80)
    ∧ (sm.summary.grade = "D" ↔ pctOf sm.total_score sm.max_score < 70)
    ∧ gradeOf 92 = "A" ∧ gradeOf 85 = "B" ∧ gradeOf 71 = "C" ∧ gradeOf 69 = "D" := by
  have hsum : sm.summary = ⟨sm.total_score, sm.max_score,
      round2 (pctOf sm.total_score sm.max_score),
      gradeOf (pctOf sm.total_score sm.max_score)⟩ := rfl
  refine ⟨?_, ?_, ?_, ?_, ?_, ?_, ?_, ?_, ?_, ?_⟩
  · intro h
    simp [hsum, pctOf, h]
  · intro h
    simp only [hsum, pctOf, h]
    norm_num [round2]
  · rw [hsum]
    exact gradeOf_eq_A _
  · rw [hsum]
    exact gradeOf_eq_B _
  · rw [hsum]
    exact gradeOf_eq_C _
  · rw [hsum]
    exact gradeOf_eq_D _
  · norm_num [gradeOf]
  · norm_num [gradeOf]
  · norm_num [gradeOf]
  · norm_num [gradeOf]

/-- Witness for C4: concrete accumulators at 92/100, 85/100, 71/100,
69/100 and the `max = 0` accumulator. -/
theorem score_summary_spec_witness :
    (ScoreManager.summary ⟨92, 100⟩).grade = "A" ∧
    (ScoreManager.summary ⟨85, 100⟩).grade = "B" ∧
    (ScoreManager.summary ⟨71, 100⟩).grade = "C" ∧
    (ScoreManager.summary ⟨69, 100⟩).grade = "D" ∧
    (ScoreManager.summary ⟨0, 0⟩).percentage = 0 ∧
    (ScoreManager.summary ⟨92, 100⟩).percentage =
      round2 ((92 : ℚ) / (100 : ℚ) * 100) := by
  refine ⟨?_, ?_, ?_, ?_, ?_, ?_⟩
  · exact (score_summary_spec ⟨92, 100⟩).2.2.1.mpr (by norm_num [pctOf])
  · exact (score_summary_spec ⟨85, 100⟩).2.2.2.1.mpr (by norm_num [pctOf])
  · exact (score_summary_spec ⟨71, 100⟩).2.2.2.2.1.mpr (by norm_num [pctOf])
  · exact (score_summary_spec ⟨69, 100⟩).2.2.2.2.2.1.mpr (by norm_num [pctOf])
  · exact (score_summary_spec ⟨0, 0⟩).2.1 rfl
  · exact (score_summary_spec ⟨92, 100⟩).1 (by norm_num)

/-- **C5.** `compare` is expectation-driven: one entry per key of
`expected` (in `expected`'s order, so keys only in `actual` contribute
nothing), whose `expected` field is the expected value, whose `actual`
field is `actual`'s value or `None` when absent, and whose match flag is
exact equality of the two. -/
theorem compare_spec (actual expected : List (String × Scalar)) :
    ((compare actual expected).map Prod.fst = expected.map Prod.fst)
    ∧ (∀ k v, (k, v) ∈ expected → (expected.map Prod.fst).Nodup →
        dictGet (compare actual expected) k =
          some { expected := v, actual := (dictGet actual k).getD .null,
                 status := ((dictGet actual k).getD .null) == v }) := by
  constructor
  · induction expected with
    | nil => simp [compare]
    | cons hd tl ih => simp [compare] at ih ⊢
  · induction expected with
    | nil => intro k v hv; simp at hv
    | cons hd tl ih =>
      intro k v hv hnd
      obtain ⟨k', v'⟩ := hd
      rw [show compare actual ((k', v') :: tl) =
        (k', { expected := v', actual := (dictGet actual k').getD .null,
               status := ((dictGet actual k').getD .null) == v' }) :: compare actual tl
        from rfl]
      rw [dictGet_cons]
      rcases List.mem_cons.mp hv with heq | hmem
      · obtain ⟨rfl, rfl⟩ := Prod.mk.injEq .. ▸ heq
        simp
      · have hk : k' ≠ k := by
          intro hkk
          subst hkk
          have : k' ∈ tl.map Prod.fst := List.mem_map.mpr ⟨(k', v), hmem, rfl⟩
          exact (List.nodup_cons.mp (by simpa using hnd)).1 this
        rw [if_neg hk]
        exact ih k v hmem (List.nodup_cons.mp (by simpa using hnd)).2

/-- Witness for C5: the spec's example,
`compare({"cores": 2, "memory": 2048}, {"cores": 2, "memory": 4096})`. -/
theorem compare_spec_witness :
    dictGet (compare [("cores", Scalar.int 2), ("memory", Scalar.int 2048)]
        [("cores", Scalar.int 2), ("memory", Scalar.int 4096)]) "cores" =
      some { expected := Scalar.int 2, actual := Scalar.int 2, status := true } ∧
    dictGet (compare [("cores", Scalar.int 2), ("memory", Scalar.int 2048)]
        [("cores", Scalar.int 2), ("memory", Scalar.int 4096)]) "memory" =
      some { expected := Scalar.int 4096, actual := Scalar.int 2048, status := false } := by
  have h := (compare_spec [("cores", Scalar.int 2), ("memory", Scalar.int 2048)]
    [("cores", Scalar.int 2), ("memory", Scalar.int 4096)]).2
  constructor
  · rw [h "cores" (Scalar.int 2) (by decide) (by decide)]
    rfl
  · rw [h "memory" (Scalar.int 4096) (by decide) (by decide)]
    rfl

/-! ## The run's event-list shape and C1 -/

lemma noFin_abort (rs : List CheckResult) :
    noFin (Event.start :: rs.map Event.check) := by
  intro e he s
  rcases List.mem_cons.mp he with rfl | hm
  · simp
  · obtain ⟨r, _, rfl⟩ := List.mem_map.mp hm
    simp

/-- Every run's generator output has one of three shapes: aborted by a
`TestStopException`, aborted by another exception, or complete with the
summary as last event — and `finished` appears exactly in the last
shape, as the final event. -/
lemma run_eq_of_connect_error {w : World} {data : TestSpec} {nodes : List Node}
    {e : String} (hc : connectAll w nodes = Except.error e) :
    TestRunner.run w data nodes = ⟨abortEvents [], Term.exc e⟩ := by
  unfold TestRunner.run
  rw [hc]

lemma run_eq_of_proxmox_fail {w : World} {data : TestSpec} {nodes : List Node}
    {rs1 : List CheckResult} {f : Failure}
    (hc : connectAll w nodes = Except.ok ())
    (hp : run_proxmox w data nodes = (rs1, Except.error f)) :
    TestRunner.run w data nodes = ⟨abortEvents rs1, f.toTerm⟩ := by
  unfold TestRunner.run
  rw [hc]
  show (match run_proxmox w data nodes with
    | (rs1, Except.error f) => (⟨abortEvents rs1, f.toTerm⟩ : GenOut)
    | (rs1, Except.ok pve_ssh) =>
      match run_ubuntu w data pve_ssh with
      | (rs2, Except.error f) => ⟨abortEvents (rs1 ++ rs2), f.toTerm⟩
      | (rs2, Except.ok ubuntu_ssh) =>
        ⟨finishEvents (rs1 ++ rs2 ++ run_php w data ubuntu_ssh ++ run_web w ubuntu_ssh
          ++ run_mysql w data ubuntu_ssh ++ run_wordpress w data
          ++ run_dns w data ubuntu_ssh), Term.normal⟩) = _
  rw [hp]

lemma run_eq_of_ubuntu_fail {w : World} {data : TestSpec} {nodes : List Node}
    {rs1 rs2 : List CheckResult} {pve : Node} {f : Failure}
    (hc : connectAll w nodes = Except.ok ())
    (hp : run_proxmox w data nodes = (rs1, Except.ok pve))
    (hu : run_ubuntu w data pve = (rs2, Except.error f)) :
    TestRunner.run w data nodes = ⟨abortEvents (rs1 ++ rs2), f.toTerm⟩ := by
  unfold TestRunner.run
  rw [hc]
  show (match run_proxmox w data nodes with
    | (rs1, Except.error f) => (⟨abortEvents rs1, f.toTerm⟩ : GenOut)
    | (rs1, Except.ok pve_ssh) =>
      match run_ubuntu w data pve_ssh with
      | (rs2, Except.error f) => ⟨abortEvents (rs1 ++ rs2), f.toTerm⟩
      | (rs2, Except.ok ubuntu_ssh) =>
        ⟨finishEvents (rs1 ++ rs2 ++ run_php w data ubuntu_ssh ++ run_web w ubuntu_ssh
          ++ run_mysql w data ubuntu_ssh ++ run_wordpress w data
          ++ run_dns w data ubuntu_ssh), Term.normal⟩) = _
  rw [hp]
  show (match run_ubuntu w data pve with
    | (rs2, Except.error f) => (⟨abortEvents (rs1 ++ rs2), f.toTerm⟩ : GenOut)
    | (rs2, Except.ok ubuntu_ssh) =>
      ⟨finishEvents (rs1 ++ rs2 ++ run_php w data ubuntu_ssh ++ run_web w ubuntu_ssh
        ++ run_mysql w data ubuntu_ssh ++ run_wordpress w data
        ++ run_dns w data ubuntu_ssh), Term.normal⟩) = _
  rw [hu]

lemma run_eq_of_all_ok {w : World} {data : TestSpec} {nodes : List Node}
    {rs1 rs2 : List CheckResult} {pve ubu : Node}
    (hc : connectAll w nodes = Except.ok ())
    (hp : run_proxmox w data nodes = (rs1, Except.ok pve))
    (hu : run_ubuntu w data pve = (rs2, Except.ok ubu)) :
    TestRunner.run w data nodes =
      ⟨finishEvents (rs1 ++ rs2 ++ run_php w data ubu ++ run_web w ubu
        ++ run_mysql w data ubu ++ run_wordpress w data
        ++ run_dns w data ubu), Term.normal⟩ := by
  unfold TestRunner.run
  rw [hc]
  show (match run_proxmox w data nodes with
    | (rs1, Except.error f) => (⟨abortEvents rs1, f.toTerm⟩ : GenOut)
    | (rs1, Except.ok pve_ssh) =>
      match run_ubuntu w data pve_ssh with
      | (rs2, Except.error f) => ⟨abortEvents (rs1 ++ rs2), f.toTerm⟩
      | (rs2, Except.ok ubuntu_ssh) =>
        ⟨finishEvents (rs1 ++ rs2 ++ run_php w data ubuntu_ssh ++ run_web w ubuntu_ssh
          ++ run_mysql w data ubuntu_ssh ++ run_wordpress w data
          ++ run_dns w data ubuntu_ssh), Term.normal⟩) = _
  rw [hp]
  show (match run_ubuntu w data pve with
    | (rs2, Except.error f) => (⟨abortEvents (rs1 ++ rs2), f.toTerm⟩ : GenOut)
    | (rs2, Except.ok ubuntu_ssh) =>
      ⟨finishEvents (rs1 ++ rs2 ++ run_php w data ubuntu_ssh ++ run_web w ubuntu_ssh
        ++ run_mysql w data ubuntu_ssh ++ run_wordpress w data
        ++ run_dns w data ubuntu_ssh), Term.normal⟩) = _
  rw [hu]

lemma run_shape (w : World) (data : TestSpec) (nodes : List Node) :
    (∃ rs m, TestRunner.run w data nodes = ⟨abortEvents rs, Term.stop m⟩)
    ∨ (∃ rs m, TestRunner.run w data nodes = ⟨abortEvents rs, Term.exc m⟩)
    ∨ (∃ rs, TestRunner.run w data nodes = ⟨finishEvents rs, Term.normal⟩) := by
  rcases hc : connectAll w nodes with e | ⟨⟩
  · exact Or.inr (Or.inl ⟨[], e, run_eq_of_connect_error hc⟩)
  · rcases hp : run_proxmox w data nodes with ⟨rs1, f | pve⟩
    · rcases f with m | m
      · exact Or.inl ⟨rs1, m, run_eq_of_proxmox_fail hc hp⟩
      · exact Or.inr (Or.inl ⟨rs1, m, run_eq_of_proxmox_fail hc hp⟩)
    · rcases hu : run_ubuntu w data pve with ⟨rs2, f | ubu⟩
      · rcases f with m | m
        · exact Or.inl ⟨rs1 ++ rs2, m, run_eq_of_ubuntu_fail hc hp hu⟩
        · exact Or.inr (Or.inl ⟨rs1 ++ rs2, m, run_eq_of_ubuntu_fail hc hp hu⟩)
      · exact Or.inr (Or.inr ⟨_, run_eq_of_all_ok hc hp hu⟩)

lemma countP_terminal_stop (m : String) (tm : Term)
    (htm : termItem tm = QItem.stopItem (some m)) (c : Option Nat) :
    ∀ (evs : List Event) (i : Nat), noFin evs →
      (deliver (runSyncGo tm c evs i)).countP isTerminal = 1 := by
  intro evs
  induction evs with
  | nil =>
    intro i _
    simp [runSyncGo, htm, deliver, List.countP, List.countP.go, isTerminal]
  | cons e rest ih =>
    intro i hnf
    by_cases hcs : cancelSet c i
    · simp [runSyncGo, hcs, deliver, List.countP, List.countP.go, isTerminal]
    · have he : isTerminal (Sent.ev e) = false := by
        cases e with
        | start => rfl
        | check r => rfl
        | finished s => exact absurd rfl (hnf _ (List.mem_cons_self _ _) s)
      rw [runSyncGo, if_neg hcs]
      rw [show deliver (QItem.ev e :: runSyncGo tm c rest (i + 1)) =
        Sent.ev e :: deliver (runSyncGo tm c rest (i + 1)) from rfl]
      rw [List.countP_cons, he]
      simpa using ih (i + 1) (fun e' he' s => hnf e' (List.mem_cons_of_mem _ he') s)

lemma countP_terminal_normal (c : Option Nat) :
    ∀ (evs : List Event) (i : Nat) (s : Summary), noFin evs →
      (deliver (runSyncGo Term.normal c (evs ++ [Event.finished s]) i)).countP
        isTerminal = 1 := by
  intro evs
  induction evs with
  | nil =>
    intro i s _
    by_cases hcs : cancelSet c i
    · simp [runSyncGo, hcs, deliver, List.countP, List.countP.go, isTerminal]
    · simp [runSyncGo, hcs, termItem, deliver, List.countP, List.countP.go, isTerminal]
  | cons e rest ih =>
    intro i s hnf
    by_cases hcs : cancelSet c i
    · simp [runSyncGo, hcs, deliver, List.countP, List.countP.go, isTerminal]
    · have he : isTerminal (Sent.ev e) = false := by
        cases e with
        | start => rfl
        | check r => rfl
        | finished s' => exact absurd rfl (hnf _ (List.mem_cons_self _ _) s')
      rw [List.cons_append, runSyncGo, if_neg hcs]
      rw [show deliver (QItem.ev e :: runSyncGo Term.normal c (rest ++ [Event.finished s]) (i + 1)) =
        Sent.ev e :: deliver (runSyncGo Term.normal c (rest ++ [Event.finished s]) (i + 1)) from rfl]
      rw [List.countP_cons, he]
      simpa using ih (i + 1) s (fun e' he' s' => hnf e' (List.mem_cons_of_mem _ he') s')

/-- **C1.** Every run's caller-visible stream — for every test payload,
node list, remote world and cancellation schedule — contains exactly one
terminal event: one `finished` summary event (full completion) or one
error-style stop event (fatal stop, cancellation, or unexpected
exception), never both and never neither. -/
theorem terminal_event_unique (w : World) (data : TestSpec) (nodes : List Node)
    (cancelFrom : Option Nat) :
    (ukkStream w data nodes cancelFrom).countP isTerminal = 1 := by
  unfold ukkStream run_sync
  rcases run_shape w data nodes with ⟨rs, m, h⟩ | ⟨rs, m, h⟩ | ⟨rs, h⟩
  · rw [h]
    exact countP_terminal_stop m (Term.stop m) rfl cancelFrom _ 0 (noFin_abort rs)
  · rw [h]
    exact countP_terminal_stop m (Term.exc m) rfl cancelFrom _ 0 (noFin_abort rs)
  · rw [h]
    have hfe : (⟨finishEvents rs, Term.normal⟩ : GenOut).events =
        (Event.start :: rs.map Event.check) ++ [Event.finished (summaryOf rs)] := by
      simp [finishEvents]
    rw [hfe]
    exact countP_terminal_normal cancelFrom _ 0 _ (noFin_abort rs)

/-! ## C2: a VM name absent from every inventory listing -/

lemma connectAll_ok (w : World) :
    ∀ nodes : List Node, (∀ n ∈ nodes, w.connect n = Except.ok ()) →
      connectAll w nodes = Except.ok () := by
  intro nodes
  induction nodes with
  | nil => intro _; rfl
  | cons n rest ih =>
    intro h
    unfold connectAll
    rw [h n (List.mem_cons_self _ _)]
    exact ih (fun n' hn' => h n' (List.mem_cons_of_mem _ hn'))

lemma find_vm_none (w : World) (name : String) :
    ∀ clients : List Node,
      (∀ n ∈ clients, ∃ r, w.exec n "hostname && qm list" = Except.ok r ∧
        vmInListing r.out name = false) →
      find_vm w clients name = Except.ok none := by
  intro clients
  induction clients with
  | nil => intro _; rfl
  | cons n rest ih =>
    intro h
    obtain ⟨r, hr, hvm⟩ := h n (List.mem_cons_self _ _)
    have hrest := ih (fun n' hn' => h n' (List.mem_cons_of_mem _ hn'))
    unfold find_vm
    simp only [sshRun, Bool.false_eq_true, if_false, hr]
    cases hs : splitlines r.out with
    | nil => exact hrest
    | cons l0 ls =>
      simp only [vmInListing, hs] at hvm
      cases hsc : scanListing name ls with
      | some vmid => rw [hsc] at hvm; simp at hvm
      | none => simp only [hsc]; exact hrest

/-- **C2.** If the requested Proxmox VM name appears in no candidate
host's inventory listing (all hosts connect and answer the listing
command), the run emits exactly one failed PVE-01 CheckResult (worth
10) and then stops with the VM-not-found reason — no resource, status,
PHP, web, database, CMS or DNS check event follows, and the delivered
stream is exactly start, the failed check, and the stop event. -/
theorem vm_not_found_aborts (w : World) (data : TestSpec) (nodes : List Node)
    (hconn : ∀ n ∈ nodes, w.connect n = Except.ok ())
    (hlist : ∀ n ∈ nodes, ∃ r, w.exec n "hostname && qm list" = Except.ok r ∧
      vmInListing r.out data.vm_proxmox.inputs.name = false) :
    ∃ res : CheckResult,
      TestRunner.run w data nodes =
        ⟨[Event.start, Event.check res],
         Term.stop "Proxmox VM not found. Cannot continue tests."⟩
      ∧ res.status = "failed" ∧ res.category = "proxmox"
      ∧ res.step_code = "PVE-01" ∧ res.max_score = 10 ∧ res.score = 0
      ∧ ukkStream w data nodes none =
          [Sent.ev Event.start, Sent.ev (Event.check res),
           Sent.err "Proxmox VM not found. Cannot continue tests."] := by
  have hfv := find_vm_none w data.vm_proxmox.inputs.name nodes hlist
  have hp : run_proxmox w data nodes =
      ([format_result "proxmox" "PVE-01" "Validate VM Exists"
          [("status", RV.s (.bool false)), ("message", RV.s (.str "VM not found"))] 10],
       Except.error (Failure.stop "Proxmox VM not found. Cannot continue tests.")) := by
    unfold run_proxmox
    rw [hfv]
  have hrun := run_eq_of_proxmox_fail (connectAll_ok w nodes hconn) hp
  refine ⟨format_result "proxmox" "PVE-01" "Validate VM Exists"
    [("status", RV.s (.bool false)), ("message", RV.s (.str "VM not found"))] 10,
    ?_, ?_, rfl, rfl, rfl, ?_, ?_⟩
  · exact hrun
  · exact (format_result_status_of_false _ _ _ _ _ (by decide)).1
  · exact (format_result_status_of_false _ _ _ _ _ (by decide)).2
  · unfold ukkStream run_sync
    rw [hrun]
    rfl

/-- Witness for C2: one configured node whose listing knows only a VM
named `othervm`, probed for `specA`'s VM `vm1`. -/
theorem vm_not_found_aborts_witness :
    (TestRunner.run wNotFound specA [node1]).term =
      Term.stop "Proxmox VM not found. Cannot continue tests."
    ∧ (TestRunner.run wNotFound specA [node1]).events.length = 2
    ∧ (ukkStream wNotFound specA [node1] none).length = 3 := by
  obtain ⟨res, h1, h2, h3, h4, h5, h6, h7⟩ :=
    vm_not_found_aborts wNotFound specA [node1]
      (by intro n _; rfl)
      (by
        intro n hn
        exact ⟨⟨"pve1\n100 othervm running\n", "", 0⟩, rfl, by decide⟩)
  refine ⟨?_, ?_, ?_⟩
  · rw [h1]
  · rw [h1]
    rfl
  · rw [h7]
    rfl

/-! ## C6: cooperative cancellation -/

lemma runSyncGo_cancel (t : Term) (c : Nat) :
    ∀ (evs : List Event) (i : Nat), i ≤ c → c - i < evs.length →
      runSyncGo t (some c) evs i =
        (evs.take (c - i)).map QItem.ev ++ [QItem.stopItem (some cancelledMsg)] := by
  intro evs
  induction evs with
  | nil => intro i _ h2; simp at h2
  | cons e rest ih =>
    intro i h1 h2
    by_cases hci : c ≤ i
    · have hzero : c - i = 0 := Nat.sub_eq_zero_of_le hci
      rw [runSyncGo]
      simp [cancelSet, hci, hzero]
    · have hlt : i < c := not_le.mp hci
      rw [runSyncGo]
      have hcs : cancelSet (some c) i = false := by
        simp [cancelSet]
        omega
      rw [hcs]
      simp only [Bool.false_eq_true, if_false]
      have hsub : c - i = (c - (i + 1)) + 1 := by omega
      rw [hsub, List.take_succ_cons, List.map_cons, List.cons_append]
      rw [ih (i + 1) (by omega) (by simp at h2 ⊢; omega)]

lemma deliver_map_ev (xs : List Event) (m : String) :
    deliver (xs.map QItem.ev ++ [QItem.stopItem (some m)]) =
      xs.map Sent.ev ++ [Sent.err m] := by
  induction xs with
  | nil => rfl
  | cons x rest ih => simp [deliver, ih]

lemma noFin_take_run (w : World) (data : TestSpec) (nodes : List Node) (c : Nat)
    (hc : c < (TestRunner.run w data nodes).events.length) :
    noFin ((TestRunner.run w data nodes).events.take c) := by
  rcases run_shape w data nodes with ⟨rs, m, h⟩ | ⟨rs, m, h⟩ | ⟨rs, h⟩
  · rw [h]
    exact fun e he s => noFin_abort rs e (List.take_subset _ _ he) s
  · rw [h]
    exact fun e he s => noFin_abort rs e (List.take_subset _ _ he) s
  · rw [h] at hc ⊢
    have hsplit : finishEvents rs =
        (Event.start :: rs.map Event.check) ++ [Event.finished (summaryOf rs)] := by
      simp [finishEvents]
    have hlen : c ≤ (Event.start :: rs.map Event.check).length := by
      rw [hsplit] at hc
      simp at hc
      simp
      omega
    intro e he s
    rw [hsplit, List.take_append_of_le_length hlen] at he
    exact noFin_abort rs e (List.take_subset _ _ he) s

/-- **C6 (amended).** If the cancellation flag is first observed at the
`c`-th flag test — i.e. it was set after the `c`-th yielded item was
forwarded would have been, and before the test guarding item `c` — and
the generator still had items to yield, then the consumer receives
exactly the first `c` events (so at most the one check already in
flight completed; it is dropped, not forwarded), followed by a single
stop event whose reason is the source's literal
`"Test cancelled by user."`, and no `finished` event is ever
delivered. -/
theorem cancellation_stops_run (w : World) (data : TestSpec) (nodes : List Node)
    (c : Nat) (hc : c < (TestRunner.run w data nodes).events.length) :
    ukkStream w data nodes (some c) =
      ((TestRunner.run w data nodes).events.take c).map Sent.ev
        ++ [Sent.err "Test cancelled by user."]
    ∧ ∀ s : Summary, Sent.ev (Event.finished s) ∉ ukkStream w data nodes (some c) := by
  have hstream : ukkStream w data nodes (some c) =
      ((TestRunner.run w data nodes).events.take c).map Sent.ev
        ++ [Sent.err "Test cancelled by user."] := by
    unfold ukkStream run_sync
    rw [runSyncGo_cancel _ c _ 0 (Nat.zero_le c) (by simpa using hc)]
    exact deliver_map_ev _ _
  refine ⟨hstream, ?_⟩
  intro s hmem
  rw [hstream] at hmem
  rcases List.mem_append.mp hmem with hin | hin
  · obtain ⟨e, he, heq⟩ := List.mem_map.mp hin
    cases heq
    exact noFin_take_run w data nodes c hc _ he s rfl
  · simp at hin

/-- Witness for C6 (amended): the not-found scenario cancelled at the
second flag test drops the pending check and stops. -/
theorem cancellation_stops_run_witness :
    1 < (TestRunner.run wNotFound specA [node1]).events.length ∧
    ukkStream wNotFound specA [node1] (some 1) =
      ((TestRunner.run wNotFound specA [node1]).events.take 1).map Sent.ev
        ++ [Sent.err "Test cancelled by user."] :=
  ⟨by decide, (cancellation_stops_run wNotFound specA [node1] 1 (by decide)).1⟩

/-- Counterexample for C6 as stated: the stop reason the bridge emits on
cancellation is the literal `"Test cancelled by user."`, not the
claimed `Stopped("cancelled by user")`. -/
theorem cancellation_reason_counterexample :
    ukkStream wNotFound specA [node1] (some 1) =
      [Sent.ev Event.start, Sent.err "Test cancelled by user."]
    ∧ Sent.err "cancelled by user" ∉ ukkStream wNotFound specA [node1] (some 1)
    ∧ "Test cancelled by user." ≠ "cancelled by user" := by decide

/-! ## C7: which checker methods catch -/

/-- Counterexample for C7 as stated: `VMChecker`'s three methods have no
exception handler, so a raising remote call propagates out of them
instead of being converted to a status-false raw dict. -/
theorem find_vm_propagates_counterexample :
    find_vm wFail [node1] "vm1" = Except.error "boom"
    ∧ check_resources wFail node1 "100" = Except.error "boom"
    ∧ check_status wFail node1 "100" = Except.error "boom" := by decide

/-- **C7 (amended).** When every underlying remote call raises, each
checker method of the PHP, web-server, MySQL, WordPress and DNS checkers
still returns a raw dict whose `status` is `False` (the cause is kept as
the message where the source records it; the PHP and nginx binary/service
probes substitute a fixed not-found message) — but `VMChecker`'s
`find_vm`, `check_resources` and `check_status` propagate the
exception. -/
theorem checkers_catch_except_vm (w : World) (e : String)
    (hexec : ∀ n cmd, w.exec n cmd = Except.error e)
    (hget : ∀ u, w.wpGet u = Except.error e)
    (_hpost : ∀ u p, w.wpPost u p = Except.error e) :
    (∀ n b, dictGet (check_php_binary w n b) "status" = some (RV.s (.bool false)))
    ∧ (∀ n mo, dictGet (check_php_modules w n mo) "status" = some (RV.s (.bool false)))
    ∧ (∀ n p, dictGet (check_nginx_binary w n p) "status" = some (RV.s (.bool false)))
    ∧ (∀ n, dictGet (check_nginx_service w n) "status" = some (RV.s (.bool false)))
    ∧ (∀ n, dictGet ( check_nginx_config_syntax w n) "status" = some (RV.s (.bool false)))
    ∧ (∀ n, dictGet (check_mysql_binary w n) "status" = some (RV.s (.bool false)))
    ∧ (∀ n, dictGet (check_mysql_service w n) "status" = some (RV.s (.bool false)))
    ∧ (∀ n dbn mu mp,
        dictGet (check_database_exists w n dbn mu mp) "status" = some (RV.s (.bool false)))
    ∧ (∀ n dbu mu mp,
        dictGet (check_database_user_exists w n dbu mu mp) "status" = some (RV.s (.bool false)))
    ∧ (∀ n dbn dbu dbp,
        dictGet (check_wordpress_db_connection w n dbn dbu dbp) "status" =
          some (RV.s (.bool false)))
    ∧ (∀ vm, dictGet (check_wordpress_login w vm) "status" = some (RV.s (.bool false)))
    ∧ (∀ n, dictGet (check_bind_binary w n) "status" = some (RV.s (.bool false)))
    ∧ (∀ n, dictGet (check_bind_service w n) "status" = some (RV.s (.bool false)))
    ∧ (∀ n d ip, dictGet (check_forward_dns w n d ip) "status" = some (RV.s (.bool false)))
    ∧ (∀ n ip d, dictGet (check_reverse_dns w n ip d) "status" = some (RV.s (.bool false)))
    ∧ (∀ n ns name, find_vm w (n :: ns) name = Except.error e)
    ∧ (∀ n vmid, check_resources w n vmid = Except.error e)
    ∧ (∀ n vmid, check_status w n vmid = Except.error e) := by
  refine ⟨?_, ?_, ?_, ?_, ?_, ?_, ?_, ?_, ?_, ?_, ?_, ?_, ?_, ?_, ?_, ?_, ?_, ?_⟩
  · intro n b
    unfold check_php_binary
    simp only [sshRun, hexec]; rfl
  · intro n mo
    unfold check_php_modules
    simp only [sshRun, hexec]; rfl
  · intro n p
    unfold check_nginx_binary
    simp only [sshRun, hexec]; rfl
  · intro n
    unfold check_nginx_service
    simp only [sshRun, hexec]; rfl
  · intro n
    unfold check_nginx_config_syntax
    simp only [sshRun, hexec]; rfl
  · intro n
    unfold check_mysql_binary
    simp only [sshRun, hexec]; rfl
  · intro n
    unfold check_mysql_service
    simp only [sshRun, hexec]; rfl
  · intro n dbn mu mp
    unfold check_database_exists
    split_ifs with hg
    · rfl
    · simp only [sshRun, hexec]; rfl
  · intro n dbu mu mp
    unfold check_database_user_exists
    split_ifs with hg
    · rfl
    · simp only [sshRun, hexec]; rfl
  · intro n dbn dbu dbp
    unfold check_wordpress_db_connection
    simp only [sshRun, hexec]; rfl
  · intro vm
    unfold check_wordpress_login
    simp only [hget]; rfl
  · intro n
    unfold check_bind_binary
    simp only [sshRun, hexec]; rfl
  · intro n
    unfold check_bind_service
    simp only [sshRun, hexec]; rfl
  · intro n d ip
    unfold check_forward_dns
    split_ifs with hg
    · rfl
    · simp only [sshRun, hexec]; rfl
  · intro n ip d
    unfold check_reverse_dns
    split_ifs with hg
    · rfl
    · simp only [sshRun, hexec]; rfl
  · intro n ns name
    unfold find_vm
    simp only [sshRun, hexec]
  · intro n vmid
    unfold check_resources
    simp only [sshRun, hexec]
  · intro n vmid
    unfold check_status
    simp only [sshRun, hexec]

/-- Witness for C7 (amended): the all-raising world `wFail`. -/
theorem checkers_catch_except_vm_witness :
    dictGet (check_mysql_binary wFail node1) "status" = some (RV.s (.bool false))
    ∧ dictGet (check_wordpress_login wFail specA.wordpress.inputs) "status" =
        some (RV.s (.bool false))
    ∧ find_vm wFail [node1] "ubuvm" = Except.error "boom" := by
  have h := checkers_catch_except_vm wFail "boom"
    (fun _ _ => rfl) (fun _ => rfl) (fun _ _ => rfl)
  exact ⟨h.2.2.2.2.2.1 node1,
    h.2.2.2.2.2.2.2.2.2.2.1 specA.wordpress.inputs,
    h.2.2.2.2.2.2.2.2.2.2.2.2.2.2.2.1 node1 [] "ubuvm"⟩

/-! ## C8: what status a raised probe produces -/

/-- Counterexample for C8 as stated: a checker whose underlying call
raised returns a raw dict with `status: False`, so the formatted
CheckResult is `"failed"` — not `"error"` as claimed. -/
theorem probe_error_status_counterexample :
    (format_result "mysql" "SQL-01" "Validate MySQL Binary"
      (check_mysql_binary wFail node1) 5).status = "failed"
    ∧ (format_result "mysql" "SQL-01" "Validate MySQL Binary"
      (check_mysql_binary wFail node1) 5).status ≠ "error"
    ∧ (format_result "mysql" "SQL-01" "Validate MySQL Binary"
      (check_mysql_binary wFail node1) 5).score = 0
    ∧ (format_result "mysql" "SQL-01" "Validate MySQL Binary"
      (check_mysql_binary wFail node1) 5).message = RV.s (.str "boom") := by decide

/-- On every path of every catching checker method — any world, any
arguments — the returned raw dict carries a boolean `status`. -/
lemma raw_status_always_boolean :
    (∀ w n b, StatusIsBoolean (check_php_binary w n b))
    ∧ (∀ w n mo, StatusIsBoolean (check_php_modules w n mo))
    ∧ (∀ w n p, StatusIsBoolean (check_nginx_binary w n p))
    ∧ (∀ w n, StatusIsBoolean (check_nginx_service w n))
    ∧ (∀ w n, StatusIsBoolean ( check_nginx_config_syntax w n))
    ∧ (∀ w n, StatusIsBoolean (check_mysql_binary w n))
    ∧ (∀ w n, StatusIsBoolean (check_mysql_service w n))
    ∧ (∀ w n dbn mu mp, StatusIsBoolean (check_database_exists w n dbn mu mp))
    ∧ (∀ w n dbu mu mp, StatusIsBoolean (check_database_user_exists w n dbu mu mp))
    ∧ (∀ w n dbn dbu dbp, StatusIsBoolean (check_wordpress_db_connection w n dbn dbu dbp))
    ∧ (∀ w vm, StatusIsBoolean (check_wordpress_login w vm))
    ∧ (∀ w n, StatusIsBoolean (check_bind_binary w n))
    ∧ (∀ w n, StatusIsBoolean (check_bind_service w n))
    ∧ (∀ w n d ip, StatusIsBoolean (check_forward_dns w n d ip))
    ∧ (∀ w n ip d, StatusIsBoolean (check_reverse_dns w n ip d)) := by
  refine ⟨?_, ?_, ?_, ?_, ?_, ?_, ?_, ?_, ?_, ?_, ?_, ?_, ?_, ?_, ?_⟩
  · intro w n b
    unfold StatusIsBoolean check_php_binary
    rcases h : sshRun w n ("which " ++ b) false with e1 | r1 <;>
      simp only [h] <;> exact ⟨_, rfl⟩
  · intro w n mo
    unfold StatusIsBoolean check_php_modules
    rcases h : sshRun w n "php -m" false with e1 | r1 <;>
      simp only [h] <;> exact ⟨_, rfl⟩
  · intro w n p
    unfold StatusIsBoolean check_nginx_binary
    rcases h : sshRun w n ("which " ++ p) false with e1 | r1 <;>
      simp only [h] <;> exact ⟨_, rfl⟩
  · intro w n
    unfold StatusIsBoolean check_nginx_service
    rcases h1 : sshRun w n "systemctl is-active nginx" false with e1 | r1
    · simp only [h1]; exact ⟨_, rfl⟩
    · simp only [h1]
      rcases h2 : sshRun w n "systemctl status nginx --no-pager" true with e2 | r2 <;>
        simp only [h2] <;> exact ⟨_, rfl⟩
  · intro w n
    unfold StatusIsBoolean check_nginx_config_syntax
    rcases h : sshRun w n "sudo -S -p \x27\x27 nginx -t" true with e1 | r1 <;>
      simp only [h] <;> exact ⟨_, rfl⟩
  · intro w n
    unfold StatusIsBoolean check_mysql_binary
    rcases h : sshRun w n "which mysql" false with e1 | r1 <;>
      simp only [h] <;> exact ⟨_, rfl⟩
  · intro w n
    unfold StatusIsBoolean check_mysql_service
    rcases h1 : sshRun w n "systemctl is-active mysql" false with e1 | r1
    · simp only [h1]; exact ⟨_, rfl⟩
    · simp only [h1]
      rcases h2 : sshRun w n "systemctl status mysql --no-pager" true with e2 | r2 <;>
        simp only [h2] <;> exact ⟨_, rfl⟩
  · intro w n dbn mu mp
    unfold StatusIsBoolean check_database_exists
    split_ifs with hg
    · exact ⟨_, rfl⟩
    · rcases h : sshRun w n (build_mysql_command
          ("SHOW DATABASES LIKE \x27" ++ dbn ++ "\x27;") mu mp) (mp = none) with e1 | r1 <;>
        simp only [h] <;> exact ⟨_, rfl⟩
  · intro w n dbu mu mp
    unfold StatusIsBoolean check_database_user_exists
    split_ifs with hg
    · exact ⟨_, rfl⟩
    · rcases h : sshRun w n (build_mysql_command
          ("SELECT User FROM mysql.user WHERE User = \x27" ++ dbu ++ "\x27;") mu mp)
          (mp = none) with e1 | r1 <;>
        simp only [h] <;> exact ⟨_, rfl⟩
  · intro w n dbn dbu dbp
    unfold StatusIsBoolean check_wordpress_db_connection
    rcases h : sshRun w n ("mysql -u " ++ dbu ++ " -p\"" ++ dbp ++ "\" -e \"USE " ++
        dbn ++ ";\"") false with e1 | r1 <;>
      simp only [h] <;> exact ⟨_, rfl⟩
  · intro w vm
    unfold StatusIsBoolean check_wordpress_login
    rcases h1 : w.wpGet (vm.url ++ "/wp-login.php") with e1 | u1
    · simp only [h1]; exact ⟨_, rfl⟩
    · simp only [h1]
      rcases h2 : w.wpPost (vm.url ++ "/wp-login.php")
          [("log", vm.username), ("pwd", vm.password), ("wp-submit", "Log In"),
           ("redirect_to", vm.url ++ "/wp-admin/"), ("testcookie", "1")] with e2 | resp <;>
        simp only [h2] <;> exact ⟨_, rfl⟩
  · intro w n
    unfold StatusIsBoolean check_bind_binary
    rcases h : sshRun w n "which named" false with e1 | r1 <;>
      simp only [h] <;> exact ⟨_, rfl⟩
  · intro w n
    unfold StatusIsBoolean check_bind_service
    rcases h1 : sshRun w n "systemctl is-active bind9" false with e1 | r1
    · simp only [h1]; exact ⟨_, rfl⟩
    · simp only [h1]
      rcases h2 : sshRun w n "systemctl status bind9 --no-pager" true with e2 | r2 <;>
        simp only [h2] <;> exact ⟨_, rfl⟩
  · intro w n d ip
    unfold StatusIsBoolean check_forward_dns
    split_ifs with hg
    · exact ⟨_, rfl⟩
    · rcases h : sshRun w n ("dig " ++ d ++ " @localhost +short") false with e1 | r1 <;>
        simp only [h] <;> exact ⟨_, rfl⟩
  · intro w n ip d
    unfold StatusIsBoolean check_reverse_dns
    split_ifs with hg
    · exact ⟨_, rfl⟩
    · rcases h : sshRun w n ("dig -x " ++ ip ++ " @localhost +short") false with e1 | r1 <;>
        simp only [h] <;> exact ⟨_, rfl⟩

/-- **C8 (amended).** When a checker's underlying call raises, the
catching checkers (PHP, web, MySQL, WordPress, DNS — `VMChecker`
propagates instead, see the C7 correction) return a raw dict with
`status: False`, so the formatted CheckResult is `"failed"` with score
0, never `"error"`, and the message field passes the raw message
through verbatim.  The nginx-config-syntax, MySQL, WordPress and DNS
probes record the captured exception text as that message (the guarded
database/DNS probes whenever their non-blank-argument guards let the
call happen at all); the PHP and nginx binary/service probes substitute
a fixed message, and the PHP modules probe records no message key.
Finally, every catching checker method's raw `status` is boolean on
every path over every world, so the `"error"` status — which requires a
non-boolean raw status — never arises from a checker result. -/
theorem probe_error_maps_to_failed (w : World) (e : String)
    (cat sc sn : String) (m : Int)
    (hexec : ∀ n c, w.exec n c = Except.error e)
    (hget : ∀ u, w.wpGet u = Except.error e)
    (_hpost : ∀ u p, w.wpPost u p = Except.error e) :
    (∀ raw : Raw, dictGet raw "status" = some (RV.s (.bool false)) →
      (format_result cat sc sn raw m).status = "failed" ∧
      (format_result cat sc sn raw m).score = 0)
    ∧ (∀ raw : Raw, (format_result cat sc sn raw m).message =
        (dictGet raw "message").getD (RV.s .null))
    ∧ (∀ raw v, dictGet raw "status" = some v →
        (format_result cat sc sn raw m).status = "error" →
        v ≠ RV.s (.bool true) ∧ v ≠ RV.s (.bool false))
    ∧ (∀ n, dictGet (check_mysql_binary w n) "status" = some (RV.s (.bool false))
        ∧ dictGet (check_mysql_binary w n) "message" = some (RV.s (.str e)))
    ∧ (∀ n, dictGet (check_mysql_service w n) "status" = some (RV.s (.bool false))
        ∧ dictGet (check_mysql_service w n) "message" = some (RV.s (.str e)))
    ∧ (∀ n dbn mu mp, pyStrip dbn ≠ "" →
        dictGet (check_database_exists w n dbn mu mp) "status" = some (RV.s (.bool false))
        ∧ dictGet (check_database_exists w n dbn mu mp) "message" = some (RV.s (.str e)))
    ∧ (∀ n dbu mu mp, pyStrip dbu ≠ "" →
        dictGet (check_database_user_exists w n dbu mu mp) "status" =
          some (RV.s (.bool false))
        ∧ dictGet (check_database_user_exists w n dbu mu mp) "message" =
          some (RV.s (.str e)))
    ∧ (∀ n dbn dbu dbp,
        dictGet (check_wordpress_db_connection w n dbn dbu dbp) "status" =
          some (RV.s (.bool false))
        ∧ dictGet (check_wordpress_db_connection w n dbn dbu dbp) "message" =
          some (RV.s (.str e)))
    ∧ (∀ vm, dictGet (check_wordpress_login w vm) "status" = some (RV.s (.bool false))
        ∧ dictGet (check_wordpress_login w vm) "message" = some (RV.s (.str e)))
    ∧ (∀ n, dictGet (check_bind_binary w n) "status" = some (RV.s (.bool false))
        ∧ dictGet (check_bind_binary w n) "message" = some (RV.s (.str e)))
    ∧ (∀ n, dictGet (check_bind_service w n) "status" = some (RV.s (.bool false))
        ∧ dictGet (check_bind_service w n) "message" = some (RV.s (.str e)))
    ∧ (∀ n d ip, pyStrip d ≠ "" → pyStrip ip ≠ "" →
        dictGet (check_forward_dns w n d ip) "status" = some (RV.s (.bool false))
        ∧ dictGet (check_forward_dns w n d ip) "message" = some (RV.s (.str e)))
    ∧ (∀ n ip d, pyStrip ip ≠ "" → pyStrip d ≠ "" →
        dictGet (check_reverse_dns w n ip d) "status" = some (RV.s (.bool false))
        ∧ dictGet (check_reverse_dns w n ip d) "message" = some (RV.s (.str e)))
    ∧ (∀ n, dictGet ( check_nginx_config_syntax w n) "status" = some (RV.s (.bool false))
        ∧ dictGet ( check_nginx_config_syntax w n) "message" = some (RV.s (.str e)))
    ∧ (∀ n b, dictGet (check_php_binary w n b) "status" = some (RV.s (.bool false))
        ∧ dictGet (check_php_binary w n b) "message" =
            some (RV.s (.str "PHP binary not found")))
    ∧ (∀ n mo, dictGet (check_php_modules w n mo) "status" = some (RV.s (.bool false))
        ∧ dictGet (check_php_modules w n mo) "message" = none)
    ∧ (∀ n p, dictGet (check_nginx_binary w n p) "status" = some (RV.s (.bool false))
        ∧ dictGet (check_nginx_binary w n p) "message" =
            some (RV.s (.str "Nginx binary not found")))
    ∧ (∀ n, dictGet (check_nginx_service w n) "status" = some (RV.s (.bool false))
        ∧ dictGet (check_nginx_service w n) "message" =
            some (RV.s (.str "Nginx service not running")))
    ∧ ((∀ w2 n b, StatusIsBoolean (check_php_binary w2 n b))
      ∧ (∀ w2 n mo, StatusIsBoolean (check_php_modules w2 n mo))
      ∧ (∀ w2 n p, StatusIsBoolean (check_nginx_binary w2 n p))
      ∧ (∀ w2 n, StatusIsBoolean (check_nginx_service w2 n))
      ∧ (∀ w2 n, StatusIsBoolean ( check_nginx_config_syntax w2 n))
      ∧ (∀ w2 n, StatusIsBoolean (check_mysql_binary w2 n))
      ∧ (∀ w2 n, StatusIsBoolean (check_mysql_service w2 n))
      ∧ (∀ w2 n dbn mu mp, StatusIsBoolean (check_database_exists w2 n dbn mu mp))
      ∧ (∀ w2 n dbu mu mp, StatusIsBoolean (check_database_user_exists w2 n dbu mu mp))
      ∧ (∀ w2 n dbn dbu dbp,
          StatusIsBoolean (check_wordpress_db_connection w2 n dbn dbu dbp))
      ∧ (∀ w2 vm, StatusIsBoolean (check_wordpress_login w2 vm))
      ∧ (∀ w2 n, StatusIsBoolean (check_bind_binary w2 n))
      ∧ (∀ w2 n, StatusIsBoolean (check_bind_service w2 n))
      ∧ (∀ w2 n d ip, StatusIsBoolean (check_forward_dns w2 n d ip))
      ∧ (∀ w2 n ip d, StatusIsBoolean (check_reverse_dns w2 n ip d))) := by
  refine ⟨?_, ?_, ?_, ?_, ?_, ?_, ?_, ?_, ?_, ?_, ?_, ?_, ?_, ?_, ?_, ?_, ?_, ?_,
    raw_status_always_boolean⟩
  · exact fun raw h => format_result_status_of_false cat sc sn raw m h
  · exact fun raw => rfl
  · intro raw v hv herr
    constructor
    · intro hvt
      subst hvt
      have hst := (format_result_status_of_true cat sc sn raw m hv).1
      rw [hst] at herr
      exact absurd herr (by decide)
    · intro hvf
      subst hvf
      have hst := (format_result_status_of_false cat sc sn raw m hv).1
      rw [hst] at herr
      exact absurd herr (by decide)
  · intro n
    unfold check_mysql_binary
    simp only [sshRun, hexec]
    exact ⟨rfl, rfl⟩
  · intro n
    unfold check_mysql_service
    simp only [sshRun, hexec]
    exact ⟨rfl, rfl⟩
  · intro n dbn mu mp hne
    unfold check_database_exists
    rw [if_neg hne]
    simp only [sshRun, hexec]
    exact ⟨rfl, rfl⟩
  · intro n dbu mu mp hne
    unfold check_database_user_exists
    rw [if_neg hne]
    simp only [sshRun, hexec]
    exact ⟨rfl, rfl⟩
  · intro n dbn dbu dbp
    unfold check_wordpress_db_connection
    simp only [sshRun, hexec]
    exact ⟨rfl, rfl⟩
  · intro vm
    unfold check_wordpress_login
    simp only [hget]
    exact ⟨rfl, rfl⟩
  · intro n
    unfold check_bind_binary
    simp only [sshRun, hexec]
    exact ⟨rfl, rfl⟩
  · intro n
    unfold check_bind_service
    simp only [sshRun, hexec]
    exact ⟨rfl, rfl⟩
  · intro n d ip hd hip
    unfold check_forward_dns
    rw [if_neg (by simp [hd, hip])]
    simp only [sshRun, hexec]
    exact ⟨rfl, rfl⟩
  · intro n ip d hip hd
    unfold check_reverse_dns
    rw [if_neg (by simp [hip, hd])]
    simp only [sshRun, hexec]
    exact ⟨rfl, rfl⟩
  · intro n
    unfold check_nginx_config_syntax
    simp only [sshRun, hexec]
    exact ⟨rfl, rfl⟩
  · intro n b
    unfold check_php_binary
    simp only [sshRun, hexec]
    exact ⟨rfl, rfl⟩
  · intro n mo
    unfold check_php_modules
    simp only [sshRun, hexec]
    exact ⟨rfl, rfl⟩
  · intro n p
    unfold check_nginx_binary
    simp only [sshRun, hexec]
    exact ⟨rfl, rfl⟩
  · intro n
    unfold check_nginx_service
    simp only [sshRun, hexec]
    exact ⟨rfl, rfl⟩

/-- Witness for C8 (amended): the all-raising world `wFail` with cause
`"boom"`, exercising a cause-recording probe, a guarded probe, a
fixed-message probe, and the formatting bridge. -/
theorem probe_error_maps_to_failed_witness :
    dictGet (check_mysql_binary wFail node1) "status" = some (RV.s (.bool false))
    ∧ dictGet (check_mysql_binary wFail node1) "message" = some (RV.s (.str "boom"))
    ∧ (format_result "mysql" "SQL-01" "Validate MySQL Binary"
        (check_mysql_binary wFail node1) 5).status = "failed"
    ∧ (format_result "mysql" "SQL-01" "Validate MySQL Binary"
        (check_mysql_binary wFail node1) 5).score = 0
    ∧ dictGet (check_forward_dns wFail node1 "example.com" "10.0.0.6") "message" =
        some (RV.s (.str "boom"))
    ∧ dictGet (check_php_binary wFail node1 "php") "message" =
        some (RV.s (.str "PHP binary not found")) := by
  have h := probe_error_maps_to_failed wFail "boom"
    "mysql" "SQL-01" "Validate MySQL Binary" 5
    (fun _ _ => rfl) (fun _ => rfl) (fun _ _ => rfl)
  have hmy := h.2.2.2.1 node1
  have hfmt := h.1 (check_mysql_binary wFail node1) hmy.1
  have hfwd := h.2.2.2.2.2.2.2.2.2.2.2.1 node1 "example.com" "10.0.0.6"
    (by decide) (by decide)
  have hphp := h.2.2.2.2.2.2.2.2.2.2.2.2.2.2.1 node1 "php"
  exact ⟨hmy.1, hmy.2, hfmt.1, hfmt.2, hfwd.2, hphp.2⟩

/-! ## C9: per-check weights -/

/-- Counterexample for C9 as stated is the found branch: when the VM
exists, PVE-01 is formatted with the **default** weight 5, not 10. -/
theorem existence_score_counterexample :
    ((run_proxmox wHappy specA [node1]).1.map
        (fun r => (r.step_code, r.status, r.max_score))).head? =
      some ("PVE-01", "success", 5)
    ∧ ((run_proxmox wHappy specA [node1]).1.map
        (fun r => (r.step_code, r.status, r.max_score))).head? ≠
      some ("PVE-01", "success", 10) := by decide

/-- **C9 (amended).** The per-check weights the runner uses: every PHP,
web and DNS check is worth 5; the MySQL stage is worth 5,5,5,5 and 10
for the end-to-end DB connection; the WordPress login is worth 15; the
VM-existence checks PVE-01/UBU-01 are worth 10 **only in the failed
(not-found) branch** — the success branch formats them with the default
weight 5. -/
theorem check_weights (w : World) (data : TestSpec) (nodes : List Node) (ubu : Node) :
    ((run_php w data ubu).map CheckResult.max_score = [5, 5])
    ∧ ((run_web w ubu).map CheckResult.max_score = [5, 5, 5])
    ∧ ((run_mysql w data ubu).map CheckResult.max_score = [5, 5, 5, 5, 10])
    ∧ ((run_wordpress w data).map CheckResult.max_score = [15])
    ∧ ((run_dns w data ubu).map CheckResult.max_score = [5, 5, 5, 5])
    ∧ (find_vm w nodes data.vm_proxmox.inputs.name = Except.ok none →
        (run_proxmox w data nodes).1.map
          (fun r => (r.step_code, r.status, r.max_score)) = [("PVE-01", "failed", 10)])
    ∧ (∀ vm, find_vm w nodes data.vm_proxmox.inputs.name = Except.ok (some vm) →
        ∃ rest, (run_proxmox w data nodes).1 =
          format_result "proxmox" "PVE-01" "Validate VM Exists"
            [("status", RV.s (.bool true))] 5 :: rest)
    ∧ (∀ pve, find_vm w [pve] data.vm_ubuntu.inputs.name = Except.ok none →
        (run_ubuntu w data pve).1.map
          (fun r => (r.step_code, r.status, r.max_score)) = [("UBU-01", "failed", 10)])
    ∧ (∀ pve vm, find_vm w [pve] data.vm_ubuntu.inputs.name = Except.ok (some vm) →
        ∃ rest, (run_ubuntu w data pve).1 =
          format_result "ubuntu" "UBU-01" "Validate Ubuntu VM Exists"
            [("status", RV.s (.bool true))] 5 :: rest) := by
  refine ⟨?_, ?_, ?_, ?_, ?_, ?_, ?_, ?_, ?_⟩
  · simp [run_php, format_result_max_score]
  · simp [run_web, format_result_max_score]
  · simp [run_mysql, format_result_max_score]
  · simp [run_wordpress, format_result_max_score]
  · simp [run_dns, format_result_max_score]
  · intro h
    unfold run_proxmox
    simp only [h]
    rfl
  · intro vm h
    unfold run_proxmox
    simp only [h]
    rcases hres : check_resources w vm.node_ssh_connection vm.vmid with e | resources
    · simp only [hres]
      exact ⟨[], rfl⟩
    · simp only [hres]
      rcases hst : check_status w vm.node_ssh_connection vm.vmid with e | status
      · simp only [hst]
        exact ⟨_, rfl⟩
      · simp only [hst]
        rcases hcon : w.connect ⟨data.vm_proxmox.inputs.host,
            data.vm_proxmox.inputs.user, data.vm_proxmox.inputs.password⟩ with e | u
        · simp only [hcon]
          exact ⟨_, rfl⟩
        · simp only [hcon]
          exact ⟨_, rfl⟩
  · intro pve h
    unfold run_ubuntu
    simp only [h]
    rfl
  · intro pve vm h
    unfold run_ubuntu
    simp only [h]
    rcases hres : check_resources w pve vm.vmid with e | resources
    · simp only [hres]
      exact ⟨[], rfl⟩
    · simp only [hres]
      rcases hst : check_status w pve vm.vmid with e | status
      · simp only [hst]
        exact ⟨_, rfl⟩
      · simp only [hst]
        rcases hcon : w.connect ⟨data.vm_ubuntu.inputs.host,
            data.vm_ubuntu.inputs.user, data.vm_ubuntu.inputs.password⟩ with e | u
        · simp only [hcon]
          exact ⟨_, rfl⟩
        · simp only [hcon]
          exact ⟨_, rfl⟩

/-- Witness for C9 (amended): both existence branches on concrete
worlds, plus the MySQL weights. -/
theorem check_weights_witness :
    ((run_mysql wHappy specA node1).map CheckResult.max_score = [5, 5, 5, 5, 10])
    ∧ ((run_proxmox wNotFound specA [node1]).1.map
        (fun r => (r.step_code, r.status, r.max_score)) = [("PVE-01", "failed", 10)])
    ∧ (run_proxmox wHappy specA [node1]).1.head? =
        some (format_result "proxmox" "PVE-01" "Validate VM Exists"
          [("status", RV.s (.bool true))] 5) := by
  refine ⟨(check_weights wHappy specA [node1] node1).2.2.1, ?_, ?_⟩
  · exact (check_weights wNotFound specA [node1] node1).2.2.2.2.2.1 (by decide)
  · obtain ⟨rest, hr⟩ := (check_weights wHappy specA [node1] node1).2.2.2.2.2.2.1
      ⟨node1, "pve1", "100"⟩ (by decide)
    rw [hr]
    rfl

end UKK
